import Mathlib

/-!
Prestige Motors front-end scripts: contact-form validation and navigation.

A shallow embedding of `src/js/script.js` (multi-page variant, namespace `Js`)
and `src/static/js/script.js` (single-page variant, namespace `Static`).

JavaScript strings are sequences of UTF-16 code units, and both `String.prototype.trim`
and regular expressions without the `u` flag work on code units, so field values are
lists of code units.  The built-ins the scripts rely on (`trim`, `RegExp.prototype.test`
for the constructs that occur in the two literals) are embedded first, then the
functions of the two scripts.
-/

namespace PrestigeMotors

/-! ## JavaScript strings -/

/-- A UTF-16 code unit (a number below `0x10000`). -/
abbrev CodeUnit := Nat

/-- A JavaScript string value: its sequence of UTF-16 code units. -/
abbrev JSString := List CodeUnit

/-- UTF-16 encoding of one Unicode scalar value. -/
def codeUnits (c : Char) : List CodeUnit :=
  if c.toNat < 0x10000 then [c.toNat]
  else [0xD800 + (c.toNat - 0x10000) / 0x400, 0xDC00 + (c.toNat - 0x10000) % 0x400]

/-- The JavaScript string denoted by a literal. -/
def utf16 (s : String) : JSString :=
  (s.toList.map codeUnits).flatten

/-- ECMAScript `WhiteSpace` and `LineTerminator` code points: what `trim` strips and what
the regular-expression class `\s` matches. -/
def isWhiteSpace (c : CodeUnit) : Bool :=
  c == 0x09 || c == 0x0A || c == 0x0B || c == 0x0C || c == 0x0D || c == 0x20 ||
  c == 0xA0 || c == 0x1680 || (0x2000 ≤ c && c ≤ 0x200A) || c == 0x2028 || c == 0x2029 ||
  c == 0x202F || c == 0x205F || c == 0x3000 || c == 0xFEFF

/-- `String.prototype.trimStart`. -/
def trimStart (s : JSString) : JSString :=
  s.dropWhile isWhiteSpace

/-- `String.prototype.trimEnd`. -/
def trimEnd (s : JSString) : JSString :=
  (s.reverse.dropWhile isWhiteSpace).reverse

/-- `String.prototype.trim`: strips leading and trailing white space and line terminators. -/
def trim (s : JSString) : JSString :=
  trimEnd (trimStart s)

/-! ## Regular expressions

Only the constructs of the two literals occur: character classes, concatenation,
`?`, `+` and `{n,}`, between the anchors `^` and `$` (no flags).  For such a pattern
`test` decides whether the whole string belongs to the language of the pattern. -/

/-- Regular expressions over code units. -/
inductive Regex where
  | empty : Regex
  | eps : Regex
  | cls : (CodeUnit → Bool) → Regex
  | alt : Regex → Regex → Regex
  | seq : Regex → Regex → Regex
  | star : Regex → Regex

namespace Regex

/-- The quantifier `?`. -/
def opt (r : Regex) : Regex := alt r eps

/-- The quantifier `+`. -/
def plus (r : Regex) : Regex := seq r (star r)

/-- The quantifier `{n,}`. -/
def atLeast : Nat → Regex → Regex
  | 0, r => star r
  | n + 1, r => seq r (atLeast n r)

/-- Does the expression match the empty string? -/
def nullable : Regex → Bool
  | empty => false
  | eps => true
  | cls _ => false
  | alt r q => nullable r || nullable q
  | seq r q => nullable r && nullable q
  | star _ => true

/-- Brzozowski derivative with respect to one code unit. -/
def deriv : Regex → CodeUnit → Regex
  | empty, _ => empty
  | eps, _ => empty
  | cls p, c => if p c then eps else empty
  | alt r q, c => alt (deriv r c) (deriv q c)
  | seq r q, c => if nullable r then alt (seq (deriv r c) q) (deriv q c) else seq (deriv r c) q
  | star r, c => seq (deriv r c) (star r)

/-- `RegExp.prototype.test` for a pattern anchored with `^` and `$`. -/
def test : Regex → JSString → Bool
  | r, [] => nullable r
  | r, c :: cs => test (deriv r c) cs

/-- The language of a regular expression. -/
inductive Matches : Regex → JSString → Prop
  | eps : Matches eps []
  | cls {p : CodeUnit → Bool} {c : CodeUnit} : p c = true → Matches (cls p) [c]
  | altL {r q : Regex} {s : JSString} : Matches r s → Matches (alt r q) s
  | altR {r q : Regex} {s : JSString} : Matches q s → Matches (alt r q) s
  | seq {r q : Regex} {a b : JSString} : Matches r a → Matches q b → Matches (seq r q) (a ++ b)
  | starNil {r : Regex} : Matches (star r) []
  | starCons {r : Regex} {a b : JSString} :
      Matches r a → Matches (star r) b → Matches (star r) (a ++ b)

end Regex

/-! ## The two patterns of `validateField` -/

/-- The class `[^\s@]`. -/
def notSpaceAt (c : CodeUnit) : Bool :=
  !(isWhiteSpace c || c == 0x40)

/-- The class `[\+]`. -/
def plusSign (c : CodeUnit) : Bool :=
  c == 0x2B

/-- The class `[1-9]`. -/
def digit19 (c : CodeUnit) : Bool :=
  0x31 ≤ c && c ≤ 0x39

/-- The class `[\d\s\-\(\)]`. -/
def phoneTail (c : CodeUnit) : Bool :=
  (0x30 ≤ c && c ≤ 0x39) || isWhiteSpace c || c == 0x2D || c == 0x28 || c == 0x29

/-- The literal `/^[^\s@]+@[^\s@]+\.[^\s@]+$/`. -/
def emailRegex : Regex :=
  .seq (.plus (.cls notSpaceAt))
    (.seq (.cls (· == 0x40))
      (.seq (.plus (.cls notSpaceAt))
        (.seq (.cls (· == 0x2E))
          (.plus (.cls notSpaceAt)))))

/-- The literal `/^[\+]?[1-9][\d\s\-\(\)]{7,}$/`. -/
def phoneRegex : Regex :=
  .seq (.opt (.cls plusSign))
    (.seq (.cls digit19)
      (.atLeast 7 (.cls phoneTail)))

/-! ## Data model: the DOM state the scripts read and write -/

/-- A form control: its `type` property, current `value`, default value (what `form.reset()`
restores), whether it has the `required` attribute, and whether its class list has `error`. -/
structure Field where
  type : String
  value : JSString
  defaultValue : JSString
  required : Bool
  error : Bool
deriving DecidableEq

/-- The submit control `button[type="submit"]`. -/
structure Button where
  textContent : String
  disabled : Bool
deriving DecidableEq

/-- A notification element created by `showNotification`: `shown` is the class `show`,
`attached` whether it is a child of the body. -/
structure Notification where
  className : String
  textContent : String
  shown : Bool
  attached : Bool
deriving DecidableEq

/-- The closures handed to `setTimeout`. -/
inductive Callback where
  | submitDone (notify : Bool) (originalText : String)
  | notificationShow (index : Nat)
  | notificationHide (index : Nat)
  | notificationRemove (index : Nat)
deriving DecidableEq

/-- A pending timer: delay in milliseconds and the closure to run. -/
structure Timer where
  delay : Nat
  callback : Callback
deriving DecidableEq

/-- The contact form with its surroundings: the controls of the form in document order,
the submit button (if the form has one), the pending timers in scheduling order and the
notification elements created so far. -/
structure Page where
  fields : List Field
  submitBtn : Option Button
  timers : List Timer
  notifications : List Notification
deriving DecidableEq

/-- A link of `.nav-links a`: its `href` attribute (if present) and the `active` class. -/
structure NavLink where
  href : Option String
  active : Bool
deriving DecidableEq

/-- An element of `section[id]`: its id and its geometry in pixels. -/
structure Section where
  id : String
  offsetTop : Int
  offsetHeight : Int
deriving DecidableEq

/-- `form.reset()` on the tracked state of the controls: every value returns to its default. -/
def resetFields (fields : List Field) : List Field :=
  fields.map fun field => { field with value := field.defaultValue }

/-! ## `src/js/script.js` -/

namespace Js

/-- `validateField(field)`: the returned validity and the field afterwards. -/
def validateField (field : Field) : Bool × Field :=
  let value := trim field.value
  let fieldType := field.type
  let isValid := true
  let field := { field with error := false }
  let isValid :=
    if fieldType = "email" then
      Regex.test emailRegex value
    else if fieldType = "tel" then
      value.isEmpty || Regex.test phoneRegex value
    else if fieldType = "text" ∨ fieldType = "textarea" then
      if field.required then decide (value.length ≥ 2) else isValid
    else isValid
  let field := if !isValid then { field with error := true } else field
  (isValid, field)

/-- The `forEach` of `validateForm` over the controls in document order, skipping those
that `[required]` does not select; `isFormValid` is the flag so far. -/
def validateFormLoop : List Field → Bool → Bool × List Field
  | [], isFormValid => (isFormValid, [])
  | field :: rest, isFormValid =>
    if field.required then
      let r := validateField field
      let isFormValid := if !r.1 then false else isFormValid
      let out := validateFormLoop rest isFormValid
      (out.1, r.2 :: out.2)
    else
      let out := validateFormLoop rest isFormValid
      (out.1, field :: out.2)

/-- `validateForm(form)`: the returned validity and the controls afterwards. -/
def validateForm (form : List Field) : Bool × List Field :=
  validateFormLoop form true

/-- `showNotification(message, type)`: appends the element and schedules its two timers. -/
def showNotification (message type : String) (page : Page) : Page :=
  let index := page.notifications.length
  let notification : Notification :=
    { className := "notification " ++ type, textContent := message, shown := false,
      attached := true }
  { page with
    notifications := page.notifications ++ [notification]
    timers := page.timers ++
      [⟨100, .notificationShow index⟩, ⟨5000, .notificationHide index⟩] }

/-- `submitForm(form)`; `none` is the `TypeError` raised when the form has no submit button. -/
def submitForm (page : Page) : Option Page :=
  match page.submitBtn with
  | none => none
  | some submitBtn =>
    let originalText := submitBtn.textContent
    let submitBtn := { submitBtn with textContent := "Sending..." }
    let submitBtn := { submitBtn with disabled := true }
    some { page with
      submitBtn := some submitBtn
      timers := page.timers ++ [⟨2000, .submitDone true originalText⟩] }

/-- The `submit` listener installed by `initContactForm`. -/
def onSubmit (page : Page) : Option Page :=
  let r := validateForm page.fields
  let page := { page with fields := r.2 }
  if r.1 then submitForm page else some page

end Js

/-! ## `src/static/js/script.js` -/

namespace Static

/-- `validateField(field)`: the returned validity and the field afterwards. -/
def validateField (field : Field) : Bool × Field :=
  let value := trim field.value
  let fieldType := field.type
  let isValid := true
  let field := { field with error := false }
  let isValid :=
    if fieldType = "email" then
      Regex.test emailRegex value
    else if fieldType = "tel" then
      value.isEmpty || Regex.test phoneRegex value
    else if fieldType = "text" ∨ fieldType = "textarea" then
      if field.required then decide (value.length ≥ 2) else isValid
    else isValid
  let field := if !isValid then { field with error := true } else field
  (isValid, field)

/-- The `forEach` of `validateForm` over the controls in document order, skipping those
that `[required]` does not select; `isFormValid` is the flag so far. -/
def validateFormLoop : List Field → Bool → Bool × List Field
  | [], isFormValid => (isFormValid, [])
  | field :: rest, isFormValid =>
    if field.required then
      let r := validateField field
      let isFormValid := if !r.1 then false else isFormValid
      let out := validateFormLoop rest isFormValid
      (out.1, r.2 :: out.2)
    else
      let out := validateFormLoop rest isFormValid
      (out.1, field :: out.2)

/-- `validateForm(form)`: the returned validity and the controls afterwards. -/
def validateForm (form : List Field) : Bool × List Field :=
  validateFormLoop form true

/-- `submitForm(form)`; `none` is the `TypeError` raised when the form has no submit button. -/
def submitForm (page : Page) : Option Page :=
  match page.submitBtn with
  | none => none
  | some submitBtn =>
    let originalText := submitBtn.textContent
    let submitBtn := { submitBtn with textContent := "Sending..." }
    let submitBtn := { submitBtn with disabled := true }
    some { page with
      submitBtn := some submitBtn
      timers := page.timers ++ [⟨2000, .submitDone false originalText⟩] }

/-- The `submit` listener installed by `initContactForm`. -/
def onSubmit (page : Page) : Option Page :=
  let r := validateForm page.fields
  let page := { page with fields := r.2 }
  if r.1 then submitForm page else some page

/-- `updateActiveNavLink(activeId)` on the links of `.nav-links a`. -/
def updateActiveNavLink (activeId : String) (navLinks : List NavLink) : List NavLink :=
  navLinks.map fun link =>
    let href := link.href
    if href = some ("#" ++ activeId) then { link with active := true }
    else { link with active := false }

/-- `updateActiveNavOnScroll()` for the sections of `section[id]` in document order and
the scroll offset `window.scrollY`. -/
def updateActiveNavOnScroll (sections : List Section) (scrollY : Int)
    (navLinks : List NavLink) : List NavLink :=
  let scrollPosition := scrollY + 150
  sections.foldl
    (fun links sec =>
      let sectionTop := sec.offsetTop
      let sectionHeight := sec.offsetHeight
      let sectionId := sec.id
      if scrollPosition ≥ sectionTop ∧ scrollPosition < sectionTop + sectionHeight then
        updateActiveNavLink sectionId links
      else links)
    navLinks

end Static

/-! ## Timers -/

/-- Running one `setTimeout` closure on the page. -/
def runCallback (callback : Callback) (page : Page) : Page :=
  match callback with
  | .submitDone notify originalText =>
    let page :=
      if notify then
        Js.showNotification "Message sent successfully! We will contact you shortly." "success"
          page
      else page
    let page := { page with fields := resetFields page.fields }
    let page :=
      { page with
        submitBtn := page.submitBtn.map fun (b : Button) => { b with textContent := originalText } }
    { page with submitBtn := page.submitBtn.map fun (b : Button) => { b with disabled := false } }
  | .notificationShow index =>
    { page with
      notifications :=
        page.notifications.modify (fun (n : Notification) => { n with shown := true }) index }
  | .notificationHide index =>
    { page with
      notifications :=
        page.notifications.modify (fun (n : Notification) => { n with shown := false }) index
      timers := page.timers ++ [⟨300, .notificationRemove index⟩] }
  | .notificationRemove index =>
    { page with
      notifications :=
        page.notifications.modify (fun (n : Notification) => { n with attached := false }) index }

/-- The `i`-th pending timer fires: it leaves the pending list and its closure runs. -/
def fire (i : Nat) (page : Page) : Option Page :=
  match page.timers.get? i with
  | none => none
  | some timer => some (runCallback timer.callback { page with timers := page.timers.eraseIdx i })

/-! ## Lazy image loading, typewriter and mobile menu: state -/

/-- An element of `img[data-src]`: its `data-src` value, its real source (`none` while
unset), the class `lazy`, whether the observer still observes it, and how many times the
script has assigned `img.src` so far. -/
structure LazyImage where
  dataSrc : String
  src : Option String
  lazy : Bool
  observed : Bool
  srcAssignments : Nat
deriving DecidableEq

/-- An `IntersectionObserverEntry`: the position of its target among the images and
whether the target intersects the viewport. -/
structure ObserverEntry where
  target : Nat
  isIntersecting : Bool
deriving DecidableEq

/-- The two closures the typewriter hands to `setTimeout`. -/
inductive TypewriterCallback where
  | typeWriter
  | removeCursor
deriving DecidableEq

/-- A pending timer of the typewriter. -/
structure TypewriterTimer where
  delay : Nat
  callback : TypewriterCallback
deriving DecidableEq

/-- The title `.hero h1` with the closure variables of `initTypewriterEffect`: the displayed
text, the style `borderRight`, the saved `text`, the counter `i` and the pending timers. -/
structure Typewriter where
  textContent : JSString
  borderRight : String
  text : JSString
  i : Nat
  timers : List TypewriterTimer
deriving DecidableEq

/-- `String.prototype.charAt`: the code unit at the index, or the empty string. -/
def charAt (s : JSString) (i : Nat) : JSString :=
  match s[i]? with
  | some c => [c]
  | none => []

/-- The mobile menu: whether `.nav-links` has the class `mobile-open`, the text of
`.mobile-menu-btn` (`none` while there is no such element), and which listeners the script
has attached (the `click` listener of the button, the `resize` listener of the window). -/
structure MobileNav where
  mobileOpen : Bool
  menuBtn : Option String
  clickListener : Bool
  resizeListener : Bool
deriving DecidableEq

/-- The single-page document as the navigation code sees it: the links of `.nav-links a`,
the sections of `section[id]`, the ids present in the document, `window.scrollY`, the
closure variable `ticking`, the number of `requestAnimationFrame` callbacks not yet run,
the number of calls of `updateActiveNavOnScroll` so far, and the mobile menu. -/
structure SinglePage where
  navLinks : List NavLink
  sections : List Section
  ids : List String
  scrollY : Int
  ticking : Bool
  pendingFrames : Nat
  navUpdates : Nat
  menu : MobileNav
deriving DecidableEq

/-- What the single-page document receives: a scroll to an offset, an animation frame, a
click on the menu button, a click on a link with the given `href`, a resize to a width. -/
inductive SinglePageEvent where
  | scroll (scrollY : Int)
  | animationFrame
  | menuClick
  | linkClick (href : Option String)
  | resize (innerWidth : Int)
deriving DecidableEq

/-! ## `src/js/script.js`, continued -/

namespace Js

/-- The body of the `entries.forEach` of the observer callback for one entry. -/
def imageObserverEntry (images : List LazyImage) (entry : ObserverEntry) : List LazyImage :=
  if entry.isIntersecting then
    images.modify
      (fun (img : LazyImage) =>
        { img with
          src := some img.dataSrc
          srcAssignments := img.srcAssignments + 1
          lazy := false
          observed := false })
      entry.target
  else images

/-- The callback of `imageObserver` on the entries of one notification. -/
def imageObserverCallback (images : List LazyImage) (entries : List ObserverEntry) :
    List LazyImage :=
  entries.foldl imageObserverEntry images

/-- `initImageLazyLoading()`: every image of `img[data-src]` becomes observed. -/
def initImageLazyLoading (images : List LazyImage) : List LazyImage :=
  images.map fun img => { img with observed := true }

/-- `initTypewriterEffect()` on the title `.hero h1`, given as its text and `borderRight`
style; `none` when the page has no such title and the function returns at once. -/
def initTypewriterEffect (heroTitle : Option (JSString × String)) : Option Typewriter :=
  match heroTitle with
  | none => none
  | some (textContent, _) =>
    let text := textContent
    some
      { textContent := []
        borderRight := "2px solid #c9a24d"
        text := text
        i := 0
        timers := [⟨1000, .typeWriter⟩] }

/-- The inner function `typeWriter()`. -/
def typeWriter (tw : Typewriter) : Typewriter :=
  if tw.i < tw.text.length then
    { tw with
      textContent := tw.textContent ++ charAt tw.text tw.i
      i := tw.i + 1
      timers := tw.timers ++ [⟨100, .typeWriter⟩] }
  else
    { tw with timers := tw.timers ++ [⟨1000, .removeCursor⟩] }

/-- One tick: the pending `typeWriter` timer fires; `none` when the next pending timer is
not a `typeWriter` timer (or nothing is pending). -/
def tick (tw : Typewriter) : Option Typewriter :=
  match tw.timers with
  | ⟨_, .typeWriter⟩ :: rest => some (typeWriter { tw with timers := rest })
  | _ => none

/-- The first `k` ticks, one after the other. -/
def ticks : Nat → Typewriter → Option Typewriter
  | 0, tw => some tw
  | k + 1, tw => (ticks k tw).bind tick

/-- `initMobileNavigation()` at the viewport width `window.innerWidth`. -/
def initMobileNavigation (innerWidth : Int) (nav : MobileNav) : MobileNav :=
  if innerWidth ≤ 768 then
    match nav.menuBtn with
    | none => { nav with menuBtn := some "☰", clickListener := true }
    | some _ => nav
  else nav

/-- The `click` listener that `initMobileNavigation` attaches to the button it creates. -/
def menuBtnClick (nav : MobileNav) : MobileNav :=
  let nav := { nav with mobileOpen := !nav.mobileOpen }
  { nav with menuBtn := nav.menuBtn.map fun _ => if nav.mobileOpen then "✕" else "☰" }

/-- A click on the menu button: the listener runs if the script has attached it. -/
def menuClick (nav : MobileNav) : MobileNav :=
  if nav.clickListener then menuBtnClick nav else nav

end Js

/-! ## `src/static/js/script.js`, continued -/

namespace Static

/-- The body of the `entries.forEach` of the observer callback for one entry. -/
def imageObserverEntry (images : List LazyImage) (entry : ObserverEntry) : List LazyImage :=
  if entry.isIntersecting then
    images.modify
      (fun (img : LazyImage) =>
        { img with
          src := some img.dataSrc
          srcAssignments := img.srcAssignments + 1
          lazy := false
          observed := false })
      entry.target
  else images

/-- The callback of `imageObserver` on the entries of one notification. -/
def imageObserverCallback (images : List LazyImage) (entries : List ObserverEntry) :
    List LazyImage :=
  entries.foldl imageObserverEntry images

/-- `initImageLazyLoading()`: every image of `img[data-src]` becomes observed. -/
def initImageLazyLoading (images : List LazyImage) : List LazyImage :=
  images.map fun img => { img with observed := true }

/-- `initTypewriterEffect()` on the title `.hero h1`, given as its text and `borderRight`
style; `none` when the page has no such title and the function returns at once. -/
def initTypewriterEffect (heroTitle : Option (JSString × String)) : Option Typewriter :=
  match heroTitle with
  | none => none
  | some (textContent, _) =>
    let text := textContent
    some
      { textContent := []
        borderRight := "2px solid #c9a24d"
        text := text
        i := 0
        timers := [⟨1000, .typeWriter⟩] }

/-- The inner function `typeWriter()`. -/
def typeWriter (tw : Typewriter) : Typewriter :=
  if tw.i < tw.text.length then
    { tw with
      textContent := tw.textContent ++ charAt tw.text tw.i
      i := tw.i + 1
      timers := tw.timers ++ [⟨100, .typeWriter⟩] }
  else
    { tw with timers := tw.timers ++ [⟨1000, .removeCursor⟩] }

/-- One tick: the pending `typeWriter` timer fires; `none` when the next pending timer is
not a `typeWriter` timer (or nothing is pending). -/
def tick (tw : Typewriter) : Option Typewriter :=
  match tw.timers with
  | ⟨_, .typeWriter⟩ :: rest => some (typeWriter { tw with timers := rest })
  | _ => none

/-- The first `k` ticks, one after the other. -/
def ticks : Nat → Typewriter → Option Typewriter
  | 0, tw => some tw
  | k + 1, tw => (ticks k tw).bind tick

/-- `initMobileNavigation()` at the viewport width `window.innerWidth`; unlike the
multi-page script it also attaches a `resize` listener to the window. -/
def initMobileNavigation (innerWidth : Int) (nav : MobileNav) : MobileNav :=
  let nav :=
    if innerWidth ≤ 768 then
      match nav.menuBtn with
      | none => { nav with menuBtn := some "☰", clickListener := true }
      | some _ => nav
    else nav
  { nav with resizeListener := true }

/-- The `click` listener that `initMobileNavigation` attaches to the button it creates. -/
def menuBtnClick (nav : MobileNav) : MobileNav :=
  let nav := { nav with mobileOpen := !nav.mobileOpen }
  { nav with menuBtn := nav.menuBtn.map fun _ => if nav.mobileOpen then "✕" else "☰" }

/-- A click on the menu button: the listener runs if the script has attached it. -/
def menuClick (nav : MobileNav) : MobileNav :=
  if nav.clickListener then menuBtnClick nav else nav

/-- The `resize` listener of `initMobileNavigation` at the new `window.innerWidth`. -/
def resizeHandler (innerWidth : Int) (nav : MobileNav) : MobileNav :=
  if innerWidth > 768 then
    let nav := { nav with mobileOpen := false }
    { nav with menuBtn := nav.menuBtn.map fun _ => "☰" }
  else nav

/-- The `click` listener of `initSinglePageNavigation` on a link with the given `href`
attribute: an `href` that starts with `#` names the target by the rest of its text (the
smooth scroll it starts is the browser's and shows up as scroll events). -/
def linkClick (href : Option String) (page : SinglePage) : SinglePage :=
  match href.map String.toList with
  | some ('#' :: rest) =>
    let targetId := String.mk rest
    if targetId ∈ page.ids then
      let page := { page with navLinks := updateActiveNavLink targetId page.navLinks }
      if page.menu.mobileOpen then
        let menu := { page.menu with mobileOpen := false }
        { page with menu := { menu with menuBtn := menu.menuBtn.map fun _ => "☰" } }
      else page
    else page
  | _ => page

/-- The `scroll` listener of `initSinglePageNavigation`. -/
def scrollListener (page : SinglePage) : SinglePage :=
  if !page.ticking then
    let page := { page with pendingFrames := page.pendingFrames + 1 }
    { page with ticking := true }
  else page

/-- The closure that the `scroll` listener hands to `requestAnimationFrame`. -/
def frameCallback (page : SinglePage) : SinglePage :=
  let page :=
    { page with
      navLinks := updateActiveNavOnScroll page.sections page.scrollY page.navLinks
      navUpdates := page.navUpdates + 1 }
  { page with ticking := false }

end Static

/-- A `resize` event at the new viewport width: the listener runs if one has been attached
(the only `resize` listener of the repository is the one of the single-page script). -/
def resizeEvent (innerWidth : Int) (nav : MobileNav) : MobileNav :=
  if nav.resizeListener then Static.resizeHandler innerWidth nav else nav

namespace Static

/-- One event on the single-page document. -/
def step (page : SinglePage) : SinglePageEvent → SinglePage
  | .scroll scrollY => scrollListener { page with scrollY := scrollY }
  | .animationFrame =>
    match page.pendingFrames with
    | 0 => page
    | n + 1 => frameCallback { page with pendingFrames := n }
  | .menuClick => { page with menu := menuClick page.menu }
  | .linkClick href => linkClick href page
  | .resize innerWidth => { page with menu := resizeEvent innerWidth page.menu }

/-- A sequence of events, handled in order. -/
def run (page : SinglePage) (events : List SinglePageEvent) : SinglePage :=
  events.foldl step page

end Static

/-! ## The rules in words, and worked examples -/

/-- The e-mail rule as the specification words it: one or more non-space characters, `@`,
one or more non-space characters, `.`, one or more non-space characters, and nothing else. -/
def SpecEmailPattern (v : JSString) : Prop :=
  ∃ a b c : JSString, v = a ++ 0x40 :: (b ++ 0x2E :: c) ∧ a ≠ [] ∧ b ≠ [] ∧ c ≠ [] ∧
    (∀ x ∈ a, isWhiteSpace x = false) ∧ (∀ x ∈ b, isWhiteSpace x = false) ∧
    (∀ x ∈ c, isWhiteSpace x = false)

/-- The e-mail rule with `@` excluded from the three runs as well. -/
def EmailPattern (v : JSString) : Prop :=
  ∃ a b c : JSString, v = a ++ 0x40 :: (b ++ 0x2E :: c) ∧ a ≠ [] ∧ b ≠ [] ∧ c ≠ [] ∧
    (∀ x ∈ a, isWhiteSpace x = false ∧ x ≠ 0x40) ∧
    (∀ x ∈ b, isWhiteSpace x = false ∧ x ≠ 0x40) ∧
    (∀ x ∈ c, isWhiteSpace x = false ∧ x ≠ 0x40)

/-- The phone rule in words: an optional leading `+`, one digit `1`-`9`, then at least seven
more characters, each a digit, a space (the class `\s`), a hyphen or a parenthesis. -/
def PhonePattern (v : JSString) : Prop :=
  ∃ (sign : JSString) (d : CodeUnit) (rest : JSString), v = sign ++ d :: rest ∧
    (sign = [] ∨ sign = [0x2B]) ∧ (0x31 ≤ d ∧ d ≤ 0x39) ∧ 7 ≤ rest.length ∧
    ∀ x ∈ rest,
      (0x30 ≤ x ∧ x ≤ 0x39) ∨ isWhiteSpace x = true ∨ x = 0x2D ∨ x = 0x28 ∨ x = 0x29

/-- A field of the given type holding the given text, for the worked examples. -/
def sampleField (type : String) (value : String) (required : Bool) : Field :=
  { type := type, value := utf16 value, defaultValue := [], required := required, error := false }

/-- The point `x` lies in the vertical extent `[top, top + height)` of the section. -/
def inExtent (sec : Section) (x : Int) : Prop :=
  sec.offsetTop ≤ x ∧ x < sec.offsetTop + sec.offsetHeight

instance (sec : Section) (x : Int) : Decidable (inExtent sec x) :=
  inferInstanceAs (Decidable (sec.offsetTop ≤ x ∧ x < sec.offsetTop + sec.offsetHeight))

/-- The navigation links with exactly those marked active whose `href` is `#` followed by
the given id. -/
def markActive (id : String) (navLinks : List NavLink) : List NavLink :=
  navLinks.map fun link => { link with active := decide (link.href = some ("#" ++ id)) }

/-- The sections of the worked example: `[0,300)` is `a` and `[300,700)` is `b`. -/
def sampleSections : List Section :=
  [{ id := "a", offsetTop := 0, offsetHeight := 300 },
   { id := "b", offsetTop := 300, offsetHeight := 400 }]

/-- Three navigation links, the first of them active. -/
def sampleLinks : List NavLink :=
  [{ href := some "#a", active := true }, { href := some "#b", active := false },
   { href := none, active := true }]

/-- A page whose form has an invalid required e-mail field and an enabled `Send` button. -/
def samplePage : Page :=
  { fields := [sampleField "text" "Ann" true, sampleField "email" "ann@" true]
    submitBtn := some { textContent := "Send", disabled := false }
    timers := []
    notifications := [] }

/-- The image after the observer callback has dealt with it as intersecting: its real
source is the `data-src` value, one more assignment is counted, the class `lazy` is gone
and the observer no longer observes it. -/
def loadImage (img : LazyImage) : LazyImage :=
  { img with
    src := some img.dataSrc
    srcAssignments := img.srcAssignments + 1
    lazy := false
    observed := false }

/-- Some entry of the notification reports the image at position `j` as intersecting. -/
def reportedIntersecting (entries : List ObserverEntry) (j : Nat) : Bool :=
  entries.any fun entry => entry.isIntersecting && entry.target == j

/-- Every callback of the sequence reports only images that the observer observes at the
moment that callback starts; `callback` says how a callback changes the images. -/
def CallbacksReportObserved
    (callback : List LazyImage → List ObserverEntry → List LazyImage) :
    List LazyImage → List (List ObserverEntry) → Prop
  | _, [] => True
  | images, entries :: rest =>
    (∀ entry ∈ entries, (images[entry.target]?).map (fun img => img.observed) = some true) ∧
      CallbacksReportObserved callback (callback images entries) rest

/-- Within one notification no image is reported as intersecting twice. -/
def DistinctIntersecting (entries : List ObserverEntry) : Prop :=
  ((entries.filter fun entry => entry.isIntersecting).map fun entry => entry.target).Nodup

instance (entries : List ObserverEntry) : Decidable (DistinctIntersecting entries) :=
  List.nodupDecidable
    ((entries.filter fun (entry : ObserverEntry) => entry.isIntersecting).map
      fun (entry : ObserverEntry) => entry.target)

/-- No image has been assigned more than once, and an image still observed never. -/
def AssignedOnce (images : List LazyImage) : Prop :=
  ∀ (j : Nat) (img : LazyImage), images[j]? = some img →
    img.srcAssignments ≤ 1 ∧ (img.observed = true → img.srcAssignments = 0)

/-- The throttle is idle (flag down, nothing pending) or armed (flag up, exactly one
animation-frame callback pending). -/
def ThrottleInv (page : SinglePage) : Prop :=
  (page.ticking = false ∧ page.pendingFrames = 0) ∨
    (page.ticking = true ∧ page.pendingFrames = 1)

/-- The menu is closed with a button reading `☰`, or open with a button reading `✕`. -/
def MenuInv (menu : MobileNav) : Prop :=
  (menu.mobileOpen = false ∧ menu.menuBtn = some "☰") ∨
    (menu.mobileOpen = true ∧ menu.menuBtn = some "✕")

/-- An observed image whose real source is still unset. -/
def sampleImage (dataSrc : String) : LazyImage :=
  { dataSrc := dataSrc, src := none, lazy := true, observed := true, srcAssignments := 0 }

/-- No menu button, a closed panel and no listener: the menu before the scripts run. -/
def freshMenu : MobileNav :=
  { mobileOpen := false, menuBtn := none, clickListener := false, resizeListener := false }

/-- A single-page document with the two sample sections, scrolled to the top, with the
mobile menu as `initMobileNavigation` sets it up on a narrow viewport. -/
def sampleSinglePage : SinglePage :=
  { navLinks := sampleLinks
    sections := sampleSections
    ids := ["a", "b"]
    scrollY := 0
    ticking := false
    pendingFrames := 0
    navUpdates := 0
    menu := Static.initMobileNavigation 500 freshMenu }

/-- A single-page document whose markup ships its own `.mobile-menu-btn` reading `☰`, after
`initMobileNavigation` on a narrow viewport: the script finds the button and attaches no
click listener to it. -/
def ownButtonPage : SinglePage :=
  { sampleSinglePage with
    menu :=
      Static.initMobileNavigation 500
        { mobileOpen := false, menuBtn := some "☰", clickListener := false,
          resizeListener := false } }

/-! ## The derivative matcher decides the language of the pattern -/

namespace Regex

theorem not_matches_empty (s : JSString) : ¬ Matches empty s := by
  intro h
  cases h

theorem matches_eps_iff (s : JSString) : Matches eps s ↔ s = [] := by
  constructor
  · intro h
    cases h
    rfl
  · rintro rfl
    exact Matches.eps

theorem matches_cls_iff (p : CodeUnit → Bool) (s : JSString) :
    Matches (cls p) s ↔ ∃ c, s = [c] ∧ p c = true := by
  constructor
  · intro h
    cases h with
    | cls hc => exact ⟨_, rfl, hc⟩
  · rintro ⟨c, rfl, hc⟩
    exact Matches.cls hc

theorem matches_alt_iff (r q : Regex) (s : JSString) :
    Matches (alt r q) s ↔ Matches r s ∨ Matches q s := by
  constructor
  · intro h
    cases h with
    | altL h => exact Or.inl h
    | altR h => exact Or.inr h
  · rintro (h | h)
    · exact Matches.altL h
    · exact Matches.altR h

theorem matches_seq_iff (r q : Regex) (s : JSString) :
    Matches (seq r q) s ↔ ∃ a b, s = a ++ b ∧ Matches r a ∧ Matches q b := by
  constructor
  · intro h
    cases h with
    | seq ha hb => exact ⟨_, _, rfl, ha, hb⟩
  · rintro ⟨a, b, rfl, ha, hb⟩
    exact Matches.seq ha hb

theorem matches_star_iff (r : Regex) (s : JSString) :
    Matches (star r) s ↔ s = [] ∨ ∃ a b, s = a ++ b ∧ Matches r a ∧ Matches (star r) b := by
  constructor
  · intro h
    cases h with
    | starNil => exact Or.inl rfl
    | starCons ha hb => exact Or.inr ⟨_, _, rfl, ha, hb⟩
  · rintro (rfl | ⟨a, b, rfl, ha, hb⟩)
    · exact Matches.starNil
    · exact Matches.starCons ha hb

theorem nullable_iff (r : Regex) : nullable r = true ↔ Matches r [] := by
  induction r with
  | empty => simp [nullable, not_matches_empty]
  | eps => simp [nullable, matches_eps_iff]
  | cls p => simp [nullable, matches_cls_iff]
  | alt r q ihr ihq => simp [nullable, matches_alt_iff, ihr, ihq]
  | seq r q ihr ihq =>
    rw [matches_seq_iff]
    simp only [nullable, Bool.and_eq_true, ihr, ihq]
    constructor
    · rintro ⟨ha, hb⟩
      exact ⟨[], [], rfl, ha, hb⟩
    · rintro ⟨a, b, hab, ha, hb⟩
      have h := List.append_eq_nil.mp hab.symm
      rw [h.1] at ha
      rw [h.2] at hb
      exact ⟨ha, hb⟩
  | star r _ => simp [nullable, Matches.starNil]

theorem star_cons_inv {R : Regex} {t : JSString} (h : Matches R t) :
    ∀ (r : Regex) (c : CodeUnit) (s : JSString), R = star r → t = c :: s →
      ∃ a b, s = a ++ b ∧ Matches r (c :: a) ∧ Matches (star r) b := by
  induction h with
  | eps => intro r c s hR; cases hR
  | cls _ => intro r c s hR; cases hR
  | altL _ _ => intro r c s hR; cases hR
  | altR _ _ => intro r c s hR; cases hR
  | seq _ _ _ _ => intro r c s hR; cases hR
  | starNil => intro r c s _ ht; cases ht
  | @starCons r0 a b ha hb _ ihb =>
    intro r c s hR ht
    cases hR
    cases a with
    | nil => exact ihb _ c s rfl ht
    | cons x a =>
      simp only [List.cons_append, List.cons.injEq] at ht
      obtain ⟨rfl, rfl⟩ := ht
      exact ⟨a, b, rfl, ha, hb⟩

theorem deriv_iff (r : Regex) (c : CodeUnit) (s : JSString) :
    Matches (deriv r c) s ↔ Matches r (c :: s) := by
  induction r generalizing s with
  | empty => simp [deriv, not_matches_empty]
  | eps => simp [deriv, not_matches_empty, matches_eps_iff]
  | cls p =>
    rw [matches_cls_iff]
    by_cases hp : p c = true
    · simp only [deriv, hp, if_true, matches_eps_iff]
      constructor
      · rintro rfl
        exact ⟨c, rfl, hp⟩
      · rintro ⟨d, hd, _⟩
        simp only [List.cons.injEq] at hd
        exact hd.2
    · simp only [deriv, hp, Bool.false_eq_true, if_false]
      constructor
      · intro h
        exact absurd h (not_matches_empty s)
      · rintro ⟨d, hd, hpd⟩
        simp only [List.cons.injEq] at hd
        rw [← hd.1] at hpd
        exact absurd hpd hp
  | alt r q ihr ihq => simp [deriv, matches_alt_iff, ihr, ihq]
  | seq r q ihr ihq =>
    have key : Matches (seq r q) (c :: s) ↔
        (∃ a b, s = a ++ b ∧ Matches r (c :: a) ∧ Matches q b) ∨
          (Matches r [] ∧ Matches q (c :: s)) := by
      rw [matches_seq_iff]
      constructor
      · rintro ⟨a, b, hab, ha, hb⟩
        cases a with
        | nil =>
          simp only [List.nil_append] at hab
          rw [← hab] at hb
          exact Or.inr ⟨ha, hb⟩
        | cons x a =>
          simp only [List.cons_append, List.cons.injEq] at hab
          obtain ⟨rfl, rfl⟩ := hab
          exact Or.inl ⟨a, b, rfl, ha, hb⟩
      · rintro (⟨a, b, rfl, ha, hb⟩ | ⟨ha, hb⟩)
        · exact ⟨c :: a, b, rfl, ha, hb⟩
        · exact ⟨[], c :: s, rfl, ha, hb⟩
    rw [key]
    by_cases hn : nullable r = true
    · simp only [deriv, hn, if_true, matches_alt_iff, matches_seq_iff, ihr, ihq]
      have hr := (nullable_iff r).mp hn
      simp only [hr, true_and]
    · simp only [deriv, hn, Bool.false_eq_true, if_false, matches_seq_iff, ihr]
      have hr : ¬ Matches r [] := fun h => hn ((nullable_iff r).mpr h)
      simp only [hr, false_and, or_false]
  | star r ih =>
    simp only [deriv, matches_seq_iff, ih]
    constructor
    · rintro ⟨a, b, rfl, ha, hb⟩
      exact Matches.starCons ha hb
    · intro h
      exact star_cons_inv h r c s rfl rfl

theorem test_iff (r : Regex) (s : JSString) : test r s = true ↔ Matches r s := by
  induction s generalizing r with
  | nil => simp [test, nullable_iff]
  | cons c cs ih => simp [test, ih, deriv_iff]

end Regex

/-! ## What the two patterns accept -/

namespace Regex

theorem matches_star_cls_iff (p : CodeUnit → Bool) (s : JSString) :
    Matches (star (cls p)) s ↔ ∀ c ∈ s, p c = true := by
  induction s with
  | nil => simp [Matches.starNil]
  | cons c cs ih =>
    rw [← deriv_iff]
    simp only [deriv, matches_seq_iff, List.mem_cons, forall_eq_or_imp]
    by_cases hp : p c = true
    · simp only [hp, if_true, matches_eps_iff, true_and]
      constructor
      · rintro ⟨a, b, rfl, rfl, hb⟩
        exact ih.mp hb
      · intro h
        exact ⟨[], cs, rfl, rfl, ih.mpr h⟩
    · simp only [hp, Bool.false_eq_true, if_false, not_matches_empty, false_and, and_false,
        exists_false]

theorem matches_plus_cls_iff (p : CodeUnit → Bool) (s : JSString) :
    Matches (plus (cls p)) s ↔ s ≠ [] ∧ ∀ c ∈ s, p c = true := by
  simp only [plus, matches_seq_iff, matches_cls_iff, matches_star_cls_iff]
  constructor
  · rintro ⟨a, b, rfl, ⟨c, rfl, hc⟩, hb⟩
    refine ⟨by simp, ?_⟩
    intro x hx
    simp only [List.singleton_append, List.mem_cons] at hx
    rcases hx with rfl | hx
    · exact hc
    · exact hb x hx
  · rintro ⟨hne, hall⟩
    cases s with
    | nil => exact absurd rfl hne
    | cons c cs =>
      exact ⟨[c], cs, rfl, ⟨c, rfl, hall c (List.mem_cons_self c cs)⟩,
        fun x hx => hall x (List.mem_cons_of_mem c hx)⟩

theorem matches_atLeast_cls_iff (n : Nat) (p : CodeUnit → Bool) (s : JSString) :
    Matches (atLeast n (cls p)) s ↔ n ≤ s.length ∧ ∀ c ∈ s, p c = true := by
  induction n generalizing s with
  | zero => simp [atLeast, matches_star_cls_iff]
  | succ n ih =>
    simp only [atLeast, matches_seq_iff, matches_cls_iff, ih]
    constructor
    · rintro ⟨a, b, rfl, ⟨c, rfl, hc⟩, hlen, hb⟩
      refine ⟨by simp only [List.singleton_append, List.length_cons]; omega, ?_⟩
      intro x hx
      simp only [List.singleton_append, List.mem_cons] at hx
      rcases hx with rfl | hx
      · exact hc
      · exact hb x hx
    · rintro ⟨hlen, hall⟩
      cases s with
      | nil => simp at hlen
      | cons c cs =>
        simp only [List.length_cons] at hlen
        exact ⟨[c], cs, rfl, ⟨c, rfl, hall c (List.mem_cons_self c cs)⟩, by omega,
          fun x hx => hall x (List.mem_cons_of_mem c hx)⟩

theorem matches_opt_iff (r : Regex) (s : JSString) :
    Matches (opt r) s ↔ Matches r s ∨ s = [] := by
  simp only [opt, matches_alt_iff, matches_eps_iff]

end Regex

theorem notSpaceAt_iff (x : CodeUnit) :
    notSpaceAt x = true ↔ isWhiteSpace x = false ∧ x ≠ 0x40 := by
  simp [notSpaceAt]

theorem phoneTail_iff (x : CodeUnit) :
    phoneTail x = true ↔
      (0x30 ≤ x ∧ x ≤ 0x39) ∨ isWhiteSpace x = true ∨ x = 0x2D ∨ x = 0x28 ∨ x = 0x29 := by
  simp [phoneTail, or_assoc]

theorem emailRegex_test_iff (v : JSString) :
    Regex.test emailRegex v = true ↔ EmailPattern v := by
  rw [Regex.test_iff]
  simp only [emailRegex, EmailPattern, Regex.matches_seq_iff, Regex.matches_plus_cls_iff,
    Regex.matches_cls_iff, notSpaceAt_iff, beq_iff_eq]
  constructor
  · rintro ⟨a, _, rfl, ⟨ha, hav⟩, _, _, rfl, ⟨_, rfl, rfl⟩, b, _, rfl, ⟨hb, hbv⟩, _, c, rfl,
      ⟨_, rfl, rfl⟩, hc, hcv⟩
    exact ⟨a, b, c, by simp, ha, hb, hc, hav, hbv, hcv⟩
  · rintro ⟨a, b, c, rfl, ha, hb, hc, hav, hbv, hcv⟩
    exact ⟨a, _, rfl, ⟨ha, hav⟩, [0x40], _, rfl, ⟨_, rfl, rfl⟩, b, _, rfl, ⟨hb, hbv⟩, [0x2E], c,
      rfl, ⟨_, rfl, rfl⟩, hc, hcv⟩

theorem phoneRegex_test_iff (v : JSString) :
    Regex.test phoneRegex v = true ↔ PhonePattern v := by
  rw [Regex.test_iff]
  simp only [phoneRegex, PhonePattern, Regex.matches_seq_iff, Regex.matches_opt_iff,
    Regex.matches_atLeast_cls_iff, Regex.matches_cls_iff, phoneTail_iff]
  constructor
  · rintro ⟨sign, _, rfl, hsign, _, rest, rfl, ⟨d, rfl, hd⟩, hlen, hrest⟩
    refine ⟨sign, d, rest, by simp, ?_, ?_, hlen, hrest⟩
    · rcases hsign with ⟨c, rfl, hc⟩ | rfl
      · right
        simp only [plusSign, beq_iff_eq] at hc
        rw [hc]
      · left
        rfl
    · simpa [digit19] using hd
  · rintro ⟨sign, d, rest, rfl, hsign, hd, hlen, hrest⟩
    refine ⟨sign, _, rfl, ?_, [d], rest, rfl, ⟨d, rfl, ?_⟩, hlen, hrest⟩
    · rcases hsign with rfl | rfl
      · right
        rfl
      · left
        exact ⟨0x2B, rfl, by simp [plusSign]⟩
    · simpa [digit19] using hd

/-! ## `validateField` -/

theorem static_validateField_eq : Static.validateField = Js.validateField := rfl

theorem validateField_email (field : Field) (h : field.type = "email") :
    (Js.validateField field).1 = Regex.test emailRegex (trim field.value) := by
  simp [Js.validateField, h]

theorem validateField_tel (field : Field) (h : field.type = "tel") :
    (Js.validateField field).1 =
      ((trim field.value).isEmpty || Regex.test phoneRegex (trim field.value)) := by
  simp [Js.validateField, h]

theorem validateField_text (field : Field) (h : field.type = "text" ∨ field.type = "textarea") :
    (Js.validateField field).1 =
      (if field.required then decide ((trim field.value).length ≥ 2) else true) := by
  rcases h with h | h <;> simp [Js.validateField, h]

/-- Claim C1, as stated, fails: the trimmed value `a@b@c.d` is made of a run of non-space
characters (`a`), `@`, a run of non-space characters (`b@c`), `.`, and a run of non-space
characters (`d`), yet `validateField` rejects it for an `email` field in both scripts. -/
theorem email_spec_pattern_counterexample :
    SpecEmailPattern (trim (sampleField "email" "a@b@c.d" true).value) ∧
      (Js.validateField (sampleField "email" "a@b@c.d" true)).1 = false ∧
      (Static.validateField (sampleField "email" "a@b@c.d" true)).1 = false := by
  refine ⟨⟨utf16 "a", utf16 "b@c", utf16 "d", by decide, by decide, by decide, by decide,
    by decide, by decide, by decide⟩, by decide, by decide⟩

/-- Claim C1, amended: for every field of type `email`, in both scripts, `validateField`
returns true if and only if the trimmed value is, in full, one or more characters that are
neither white space nor `@`, then `@`, then one or more such characters, then `.`, then one
or more such characters. -/
theorem validateField_email_iff (field : Field) (h : field.type = "email") :
    ((Js.validateField field).1 = true ↔ EmailPattern (trim field.value)) ∧
      ((Static.validateField field).1 = true ↔ EmailPattern (trim field.value)) := by
  rw [static_validateField_eq, validateField_email field h, emailRegex_test_iff]
  exact ⟨Iff.rfl, Iff.rfl⟩

/-- Witness for `validateField_email_iff`: an `email` field holding ` a@b.co `. -/
theorem validateField_email_iff_witness :
    (sampleField "email" " a@b.co " true).type = "email" ∧
      (((Js.validateField (sampleField "email" " a@b.co " true)).1 = true ↔
          EmailPattern (trim (sampleField "email" " a@b.co " true).value)) ∧
        ((Static.validateField (sampleField "email" " a@b.co " true)).1 = true ↔
          EmailPattern (trim (sampleField "email" " a@b.co " true).value))) :=
  ⟨rfl, validateField_email_iff _ rfl⟩

/-- Claim C2: for every field of type `tel`, required or not, in both scripts,
`validateField` returns true if and only if the trimmed value is empty or consists of an
optional leading `+`, one digit `1`-`9`, and at least seven more characters, each a digit,
a space (the class `\s`), a hyphen or a parenthesis; the empty value and `+1234567890` are
valid, `123` and `abc-def-ghij` are invalid. -/
theorem validateField_tel_iff (field : Field) (h : field.type = "tel") :
    ((Js.validateField field).1 = true ↔
        trim field.value = [] ∨ PhonePattern (trim field.value)) ∧
      ((Static.validateField field).1 = true ↔
        trim field.value = [] ∨ PhonePattern (trim field.value)) ∧
      (∀ required : Bool,
        (Js.validateField (sampleField "tel" "" required)).1 = true ∧
        (Js.validateField (sampleField "tel" "+1234567890" required)).1 = true ∧
        (Js.validateField (sampleField "tel" "123" required)).1 = false ∧
        (Js.validateField (sampleField "tel" "abc-def-ghij" required)).1 = false ∧
        (Static.validateField (sampleField "tel" "" required)).1 = true ∧
        (Static.validateField (sampleField "tel" "+1234567890" required)).1 = true ∧
        (Static.validateField (sampleField "tel" "123" required)).1 = false ∧
        (Static.validateField (sampleField "tel" "abc-def-ghij" required)).1 = false) := by
  have key : (Js.validateField field).1 = true ↔
      trim field.value = [] ∨ PhonePattern (trim field.value) := by
    rw [validateField_tel field h, Bool.or_eq_true, phoneRegex_test_iff, List.isEmpty_iff]
  refine ⟨key, ?_, ?_⟩
  · rw [static_validateField_eq]
    exact key
  · intro required
    cases required <;> decide

/-- Witness for `validateField_tel_iff`: a required `tel` field holding `+1 (234) 567-890`. -/
theorem validateField_tel_iff_witness :
    (sampleField "tel" "+1 (234) 567-890" true).type = "tel" ∧
      (Js.validateField (sampleField "tel" "+1 (234) 567-890" true)).1 = true :=
  ⟨rfl, ((validateField_tel_iff (sampleField "tel" "+1 (234) 567-890" true) rfl).1).mpr
    (Or.inr ⟨utf16 "+", 0x31, utf16 " (234) 567-890", by decide, by decide, by decide,
      by decide, by decide⟩)⟩

/-- Claim C3: for every field of type `text` or `textarea`, in both scripts, `validateField`
returns true if and only if the field is not required or its value has length at least 2
after trimming leading and trailing white space; for a required field `ok` is valid while
`a` and `  a  ` are invalid. -/
theorem validateField_text_iff (field : Field)
    (h : field.type = "text" ∨ field.type = "textarea") :
    ((Js.validateField field).1 = true ↔
        field.required = false ∨ 2 ≤ (trim field.value).length) ∧
      ((Static.validateField field).1 = true ↔
        field.required = false ∨ 2 ≤ (trim field.value).length) ∧
      (Js.validateField { field with value := utf16 "ok", required := true }).1 = true ∧
      (Js.validateField { field with value := utf16 "a", required := true }).1 = false ∧
      (Js.validateField { field with value := utf16 "  a  ", required := true }).1 = false ∧
      (Static.validateField { field with value := utf16 "ok", required := true }).1 = true ∧
      (Static.validateField { field with value := utf16 "a", required := true }).1 = false ∧
      (Static.validateField { field with value := utf16 "  a  ", required := true }).1 = false := by
  have key : ∀ f : Field, (f.type = "text" ∨ f.type = "textarea") →
      ((Js.validateField f).1 = true ↔ f.required = false ∨ 2 ≤ (trim f.value).length) := by
    intro f hf
    rw [validateField_text f hf]
    cases hr : f.required <;> simp
  have good : ∀ v : JSString, 2 ≤ (trim v).length →
      (Js.validateField { field with value := v, required := true }).1 = true :=
    fun v hv => (key { field with value := v, required := true } h).mpr (Or.inr hv)
  have bad : ∀ v : JSString, (trim v).length < 2 →
      (Js.validateField { field with value := v, required := true }).1 = false := by
    intro v hv
    rw [Bool.eq_false_iff]
    intro hval
    rcases (key { field with value := v, required := true } h).mp hval with hr | hl
    · exact Bool.noConfusion hr
    · exact absurd hl (Nat.not_le.mpr hv)
  rw [static_validateField_eq]
  exact ⟨key field h, key field h, good _ (by decide), bad _ (by decide), bad _ (by decide),
    good _ (by decide), bad _ (by decide), bad _ (by decide)⟩

/-- Witness for `validateField_text_iff`: a required `textarea` holding two spaces and `a`. -/
theorem validateField_text_iff_witness :
    ((sampleField "textarea" "  a" true).type = "text" ∨
        (sampleField "textarea" "  a" true).type = "textarea") ∧
      (Js.validateField (sampleField "textarea" "  a" true)).1 = false := by
  have h := (validateField_text_iff (sampleField "textarea" "  a" true) (Or.inr rfl)).1
  refine ⟨Or.inr rfl, ?_⟩
  cases hv : (Js.validateField (sampleField "textarea" "  a" true)).1
  · rfl
  · exact absurd (h.mp hv) (by decide)

theorem validateField_snd (field : Field) :
    (Js.validateField field).2 = { field with error := !(Js.validateField field).1 } := by
  have h : (Js.validateField field).2 =
      if !(Js.validateField field).1 then { field with error := true }
      else { field with error := false } := rfl
  rw [h]
  cases (Js.validateField field).1 <;> rfl

/-- Claim C5: for every field and every prior state of its error marker, in both scripts,
after `validateField` the field carries the `error` marker if and only if the returned
value is false, and its value, type, required flag and default value are unchanged. -/
theorem validateField_error_marker (field : Field) :
    (((Js.validateField field).2.error = true ↔ (Js.validateField field).1 = false) ∧
        (Js.validateField field).2.value = field.value ∧
        (Js.validateField field).2.type = field.type ∧
        (Js.validateField field).2.required = field.required ∧
        (Js.validateField field).2.defaultValue = field.defaultValue) ∧
      (((Static.validateField field).2.error = true ↔ (Static.validateField field).1 = false) ∧
        (Static.validateField field).2.value = field.value ∧
        (Static.validateField field).2.type = field.type ∧
        (Static.validateField field).2.required = field.required ∧
        (Static.validateField field).2.defaultValue = field.defaultValue) := by
  rw [static_validateField_eq, validateField_snd]
  simp

/-! ## `validateForm` -/

theorem static_validateFormLoop_eq (form : List Field) (b : Bool) :
    Static.validateFormLoop form b = Js.validateFormLoop form b := by
  induction form generalizing b with
  | nil => rfl
  | cons field rest ih =>
    simp only [Static.validateFormLoop, Js.validateFormLoop, static_validateField_eq, ih]

theorem static_validateForm_eq (form : List Field) :
    Static.validateForm form = Js.validateForm form :=
  static_validateFormLoop_eq form true

theorem validateFormLoop_fst (form : List Field) (b : Bool) :
    (Js.validateFormLoop form b).1 =
      (b && form.all fun f => !f.required || (Js.validateField f).1) := by
  induction form generalizing b with
  | nil => simp [Js.validateFormLoop]
  | cons field rest ih =>
    simp only [Js.validateFormLoop]
    split
    · rename_i hreq
      simp only [ih, List.all_cons, hreq]
      cases (Js.validateField field).1 <;> simp
    · rename_i hreq
      simp only [ih, List.all_cons, hreq]
      simp

theorem validateFormLoop_snd (form : List Field) (b : Bool) :
    (Js.validateFormLoop form b).2 =
      form.map fun f => if f.required then (Js.validateField f).2 else f := by
  induction form generalizing b with
  | nil => simp [Js.validateFormLoop]
  | cons field rest ih =>
    simp only [Js.validateFormLoop]
    split <;> rename_i hreq <;> simp [ih, hreq]

theorem validateForm_fst_iff (form : List Field) :
    (Js.validateForm form).1 = true ↔
      ∀ field ∈ form, field.required = true → (Js.validateField field).1 = true := by
  simp only [Js.validateForm, validateFormLoop_fst, Bool.true_and, List.all_eq_true,
    Bool.or_eq_true, Bool.not_eq_true']
  constructor
  · intro h field hf hreq
    rcases h field hf with h1 | h1
    · rw [hreq] at h1
      exact Bool.noConfusion h1
    · exact h1
  · intro h field hf
    cases hreq : field.required
    · exact Or.inl rfl
    · exact Or.inr (h field hf hreq)

/-- Claim C4: for every form (any ordered list of fields), in both scripts, `validateForm`
returns true if and only if `validateField` returns true for every field that carries the
required flag; the result is the same as on the form with the fields without the flag
left out, and a form with no required field is valid. -/
theorem validateForm_iff (form : List Field) :
    ((Js.validateForm form).1 = true ↔
        ∀ field ∈ form, field.required = true → (Js.validateField field).1 = true) ∧
      ((Static.validateForm form).1 = true ↔
        ∀ field ∈ form, field.required = true → (Static.validateField field).1 = true) ∧
      (Js.validateForm form).1 = (Js.validateForm (form.filter fun f => f.required)).1 ∧
      (Static.validateForm form).1 = (Static.validateForm (form.filter fun f => f.required)).1 ∧
      ((∀ field ∈ form, field.required = false) →
        (Js.validateForm form).1 = true ∧ (Static.validateForm form).1 = true) := by
  have hfilter : (Js.validateForm form).1 =
      (Js.validateForm (form.filter fun f => f.required)).1 := by
    rw [Bool.eq_iff_iff, validateForm_fst_iff, validateForm_fst_iff]
    constructor
    · intro h field hf hreq
      exact h field (List.mem_filter.mp hf).1 hreq
    · intro h field hf hreq
      exact h field (List.mem_filter.mpr ⟨hf, hreq⟩) hreq
  have hnone : (∀ field ∈ form, field.required = false) → (Js.validateForm form).1 = true := by
    intro h
    rw [validateForm_fst_iff]
    intro field hf hreq
    rw [h field hf] at hreq
    exact Bool.noConfusion hreq
  simp only [static_validateForm_eq, static_validateField_eq]
  exact ⟨validateForm_fst_iff form, validateForm_fst_iff form, hfilter, hfilter,
    fun h => ⟨hnone h, hnone h⟩⟩

/-- Claim C6: `validateForm` does not stop at the first invalid field: in both scripts the
form keeps its length, and every required field, wherever it stands in the form, afterwards
carries the `error` marker exactly when `validateField` finds it invalid. -/
theorem validateForm_marks_every_required (form : List Field) (i : Nat) (field : Field)
    (hi : form[i]? = some field) (hreq : field.required = true) :
    ((Js.validateForm form).2.length = form.length ∧
        ∃ out, (Js.validateForm form).2[i]? = some out ∧
          (out.error = true ↔ (Js.validateField field).1 = false)) ∧
      ((Static.validateForm form).2.length = form.length ∧
        ∃ out, (Static.validateForm form).2[i]? = some out ∧
          (out.error = true ↔ (Static.validateField field).1 = false)) := by
  have key : (Js.validateForm form).2.length = form.length ∧
      ∃ out, (Js.validateForm form).2[i]? = some out ∧
        (out.error = true ↔ (Js.validateField field).1 = false) := by
    simp only [Js.validateForm, validateFormLoop_snd, List.length_map, List.getElem?_map, hi,
      Option.map_some', hreq, if_true, true_and]
    exact ⟨_, rfl, by rw [validateField_snd]; simp⟩
  simp only [static_validateForm_eq, static_validateField_eq]
  exact ⟨key, key⟩

/-- Witness for `validateForm_marks_every_required`: the second of two invalid required
fields is marked as well. -/
theorem validateForm_marks_every_required_witness :
    [sampleField "text" "a" true, sampleField "email" "a@b" true,
        sampleField "text" "ok" true][1]? = some (sampleField "email" "a@b" true) ∧
      (sampleField "email" "a@b" true).required = true ∧
      (Js.validateField (sampleField "email" "a@b" true)).1 = false ∧
      ∃ out, (Js.validateForm [sampleField "text" "a" true, sampleField "email" "a@b" true,
          sampleField "text" "ok" true]).2[1]? = some out ∧
        (out.error = true ↔ (Js.validateField (sampleField "email" "a@b" true)).1 = false) :=
  ⟨rfl, rfl, by decide,
    (validateForm_marks_every_required
      [sampleField "text" "a" true, sampleField "email" "a@b" true, sampleField "text" "ok" true]
      1 (sampleField "email" "a@b" true) rfl rfl).1.2⟩

/-! ## The submit listener and `submitForm` -/

theorem validateForm_snd_values (form : List Field) :
    (Js.validateForm form).2.map (fun f => f.value) = form.map fun f => f.value := by
  simp only [Js.validateForm, validateFormLoop_snd, List.map_map]
  apply List.map_congr_left
  intro f _
  simp only [Function.comp]
  split
  · rw [validateField_snd]
  · rfl

theorem static_onSubmit_eq (page : Page) :
    Static.onSubmit page =
      if (Js.validateForm page.fields).1 = true then
        Static.submitForm { page with fields := (Js.validateForm page.fields).2 }
      else some { page with fields := (Js.validateForm page.fields).2 } := by
  simp only [Static.onSubmit, static_validateForm_eq]

/-- Claim C7: for every form in which at least one required field is invalid, the submit
listener of either script does not invoke `submitForm`: the submit button (label and
disabled state), the pending timers and the notifications are as before and every field
keeps its value.  For every form the listener is `submitForm` on the validated form when
`validateForm` returns true, and only the validation when it returns false. -/
theorem onSubmit_invalid_form (page : Page)
    (h : ∃ field ∈ page.fields, field.required = true ∧ (Js.validateField field).1 = false) :
    (∃ page1, Js.onSubmit page = some page1 ∧ page1.submitBtn = page.submitBtn ∧
        page1.timers = page.timers ∧ page1.notifications = page.notifications ∧
        page1.fields.map (fun f => f.value) = page.fields.map fun f => f.value) ∧
      (∃ page1, Static.onSubmit page = some page1 ∧ page1.submitBtn = page.submitBtn ∧
        page1.timers = page.timers ∧ page1.notifications = page.notifications ∧
        page1.fields.map (fun f => f.value) = page.fields.map fun f => f.value) ∧
      (∀ q : Page, Js.onSubmit q =
        if (Js.validateForm q.fields).1 = true then
          Js.submitForm { q with fields := (Js.validateForm q.fields).2 }
        else some { q with fields := (Js.validateForm q.fields).2 }) ∧
      (∀ q : Page, Static.onSubmit q =
        if (Static.validateForm q.fields).1 = true then
          Static.submitForm { q with fields := (Static.validateForm q.fields).2 }
        else some { q with fields := (Static.validateForm q.fields).2 }) := by
  have hbad : (Js.validateForm page.fields).1 = false := by
    rw [Bool.eq_false_iff]
    intro hv
    obtain ⟨field, hf, hreq, hinv⟩ := h
    rw [(validateForm_fst_iff page.fields).mp hv field hf hreq] at hinv
    exact Bool.noConfusion hinv
  refine ⟨⟨{ page with fields := (Js.validateForm page.fields).2 }, ?_, rfl, rfl, rfl,
      validateForm_snd_values page.fields⟩,
    ⟨{ page with fields := (Js.validateForm page.fields).2 }, ?_, rfl, rfl, rfl,
      validateForm_snd_values page.fields⟩, fun q => rfl, fun q => rfl⟩
  · simp [Js.onSubmit, hbad]
  · simp [static_onSubmit_eq, hbad]

/-- Witness for `onSubmit_invalid_form`: a form whose required e-mail field holds `ann@`. -/
theorem onSubmit_invalid_form_witness :
    (∃ field ∈ samplePage.fields,
        field.required = true ∧ (Js.validateField field).1 = false) ∧
      ∃ page1, Js.onSubmit samplePage = some page1 ∧ page1.submitBtn = samplePage.submitBtn ∧
        page1.timers = samplePage.timers ∧ page1.notifications = samplePage.notifications ∧
        page1.fields.map (fun f => f.value) = samplePage.fields.map fun f => f.value :=
  ⟨⟨sampleField "email" "ann@" true, by decide, rfl, by decide⟩,
    (onSubmit_invalid_form samplePage
      ⟨sampleField "email" "ann@" true, by decide, rfl, by decide⟩).1⟩

/-- Claim C8: for every form with an enabled submit button labelled `label`, in both
scripts, right after `submitForm` the button is disabled and labelled `Sending...`, the
fields are untouched and exactly one timer, of 2000 ms, has been added; when that timer
fires, every field has its default value, the label is `label` again and the button is
enabled. -/
theorem submitForm_then_callback (page : Page) (label : String)
    (h : page.submitBtn = some { textContent := label, disabled := false }) :
    (∃ page1 callback, Js.submitForm page = some page1 ∧
        page1.submitBtn = some { textContent := "Sending...", disabled := true } ∧
        page1.fields = page.fields ∧
        page1.timers = page.timers ++ [{ delay := 2000, callback := callback }] ∧
        ∃ page2, fire page.timers.length page1 = some page2 ∧
          page2.fields = page.fields.map (fun f => { f with value := f.defaultValue }) ∧
          page2.submitBtn = some { textContent := label, disabled := false }) ∧
      (∃ page1 callback, Static.submitForm page = some page1 ∧
        page1.submitBtn = some { textContent := "Sending...", disabled := true } ∧
        page1.fields = page.fields ∧
        page1.timers = page.timers ++ [{ delay := 2000, callback := callback }] ∧
        ∃ page2, fire page.timers.length page1 = some page2 ∧
          page2.fields = page.fields.map (fun f => { f with value := f.defaultValue }) ∧
          page2.submitBtn = some { textContent := label, disabled := false }) := by
  constructor
  · refine ⟨{ page with
        submitBtn := some { textContent := "Sending...", disabled := true }
        timers := page.timers ++ [{ delay := 2000, callback := .submitDone true label }] },
      .submitDone true label, by simp only [Js.submitForm, h], rfl, rfl, rfl, ?_⟩
    simp [fire, runCallback, Js.showNotification, resetFields]
  · refine ⟨{ page with
        submitBtn := some { textContent := "Sending...", disabled := true }
        timers := page.timers ++ [{ delay := 2000, callback := .submitDone false label }] },
      .submitDone false label, by simp only [Static.submitForm, h], rfl, rfl, rfl, ?_⟩
    simp [fire, runCallback, resetFields]

/-- Witness for `submitForm_then_callback`: the sample page, whose button reads `Send`. -/
theorem submitForm_then_callback_witness :
    samplePage.submitBtn = some { textContent := "Send", disabled := false } ∧
      ∃ page1 callback, Static.submitForm samplePage = some page1 ∧
        page1.submitBtn = some { textContent := "Sending...", disabled := true } ∧
        page1.fields = samplePage.fields ∧
        page1.timers = samplePage.timers ++ [{ delay := 2000, callback := callback }] ∧
        ∃ page2, fire samplePage.timers.length page1 = some page2 ∧
          page2.fields = samplePage.fields.map (fun f => { f with value := f.defaultValue }) ∧
          page2.submitBtn = some { textContent := "Send", disabled := false } :=
  ⟨rfl, (submitForm_then_callback samplePage "Send" rfl).2⟩

/-! ## Active-section tracking -/

theorem updateActiveNavLink_eq (id : String) (navLinks : List NavLink) :
    Static.updateActiveNavLink id navLinks = markActive id navLinks := by
  simp only [Static.updateActiveNavLink, markActive]
  apply List.map_congr_left
  intro link _
  by_cases hl : link.href = some ("#" ++ id) <;> simp [hl]

theorem markActive_markActive (a b : String) (navLinks : List NavLink) :
    markActive a (markActive b navLinks) = markActive a navLinks := by
  simp [markActive, List.map_map, Function.comp]

theorem updateActiveNavOnScroll_cons (sec : Section) (rest : List Section) (scrollY : Int)
    (navLinks : List NavLink) :
    Static.updateActiveNavOnScroll (sec :: rest) scrollY navLinks =
      Static.updateActiveNavOnScroll rest scrollY
        (if inExtent sec (scrollY + 150) then markActive sec.id navLinks else navLinks) := by
  simp only [Static.updateActiveNavOnScroll, List.foldl_cons, inExtent, ge_iff_le,
    updateActiveNavLink_eq]

theorem updateActiveNavOnScroll_same_id (id : String) (scrollY : Int) :
    ∀ (sections : List Section) (navLinks : List NavLink),
      (∀ sec ∈ sections, inExtent sec (scrollY + 150) → sec.id = id) →
      Static.updateActiveNavOnScroll sections scrollY navLinks =
        if ∃ sec ∈ sections, inExtent sec (scrollY + 150) then markActive id navLinks
        else navLinks := by
  intro sections
  induction sections with
  | nil =>
    intro navLinks _
    simp [Static.updateActiveNavOnScroll]
  | cons sec rest ih =>
    intro navLinks hid
    have hrest : ∀ t ∈ rest, inExtent t (scrollY + 150) → t.id = id :=
      fun t ht => hid t (List.mem_cons_of_mem sec ht)
    rw [updateActiveNavOnScroll_cons, ih _ hrest]
    by_cases hsec : inExtent sec (scrollY + 150)
    · have hsid : sec.id = id := hid sec (List.mem_cons_self sec rest) hsec
      have hex : ∃ t ∈ sec :: rest, inExtent t (scrollY + 150) :=
        ⟨sec, List.mem_cons_self sec rest, hsec⟩
      rw [if_pos hsec, if_pos hex, hsid, markActive_markActive]
      split <;> rfl
    · rw [if_neg hsec]
      by_cases hex : ∃ t ∈ rest, inExtent t (scrollY + 150)
      · have hex2 : ∃ t ∈ sec :: rest, inExtent t (scrollY + 150) := by
          obtain ⟨t, ht, hin⟩ := hex
          exact ⟨t, List.mem_cons_of_mem sec ht, hin⟩
        rw [if_pos hex, if_pos hex2]
      · have hex2 : ¬ ∃ t ∈ sec :: rest, inExtent t (scrollY + 150) := by
          rintro ⟨t, ht, hin⟩
          rcases List.mem_cons.mp ht with rfl | ht
          · exact hsec hin
          · exact hex ⟨t, ht, hin⟩
        rw [if_neg hex, if_neg hex2]

/-- Claim C9: for every list of sections with pairwise disjoint extents `[top, top+height)`
and every scroll offset `scrollY` such that a section `sec` contains the probe point
`scrollY + 150`, after `updateActiveNavOnScroll` the links marked active are exactly those
whose `href` is `#` followed by the id of `sec`, whatever was active before and with every
`href` unchanged; with sections `[0,300)` named `a` and `[300,700)` named `b` and
`scrollY = 200` the active links are those of `#b`. -/
theorem updateActiveNavOnScroll_marks_section (sections : List Section) (scrollY : Int)
    (navLinks : List NavLink) (sec : Section) (hmem : sec ∈ sections)
    (hdisjoint : sections.Pairwise fun s t => ∀ x : Int, ¬ (inExtent s x ∧ inExtent t x))
    (hprobe : inExtent sec (scrollY + 150)) :
    Static.updateActiveNavOnScroll sections scrollY navLinks =
        navLinks.map (fun link =>
          { link with active := decide (link.href = some ("#" ++ sec.id)) }) ∧
      ∀ links : List NavLink, Static.updateActiveNavOnScroll sampleSections 200 links =
        links.map fun link => { link with active := decide (link.href = some "#b") } := by
  constructor
  · have hsym : Symmetric fun s t : Section => ∀ x : Int, ¬ (inExtent s x ∧ inExtent t x) :=
      fun s t hst x hx => hst x ⟨hx.2, hx.1⟩
    have hid : ∀ t ∈ sections, inExtent t (scrollY + 150) → t.id = sec.id := by
      intro t ht hin
      by_cases hts : t = sec
      · rw [hts]
      · exact absurd ⟨hin, hprobe⟩ (hdisjoint.forall hsym ht hmem hts (scrollY + 150))
    rw [updateActiveNavOnScroll_same_id sec.id scrollY sections navLinks hid,
      if_pos ⟨sec, hmem, hprobe⟩]
    rfl
  · intro links
    have hid : ∀ t ∈ sampleSections, inExtent t (200 + 150) → t.id = "b" := by
      intro t ht hin
      simp only [sampleSections, List.mem_cons, List.mem_singleton, List.not_mem_nil,
        or_false] at ht
      rcases ht with rfl | rfl
      · simp [inExtent] at hin
      · rfl
    have hex : ∃ t ∈ sampleSections, inExtent t (200 + 150) :=
      ⟨{ id := "b", offsetTop := 300, offsetHeight := 400 }, by simp [sampleSections],
        by simp [inExtent]⟩
    rw [updateActiveNavOnScroll_same_id "b" 200 sampleSections links hid, if_pos hex]
    rfl

/-- Witness for `updateActiveNavOnScroll_marks_section`: the two sample sections at scroll
offset 200, where the link of `#a` was active before. -/
theorem updateActiveNavOnScroll_marks_section_witness :
    Static.updateActiveNavOnScroll sampleSections 200 sampleLinks =
      [{ href := some "#a", active := false }, { href := some "#b", active := true },
       { href := none, active := false }] := by
  have h := (updateActiveNavOnScroll_marks_section sampleSections 200 sampleLinks
    { id := "b", offsetTop := 300, offsetHeight := 400 } (by simp [sampleSections])
    (by
      simp only [sampleSections, List.pairwise_cons, List.mem_singleton, forall_eq,
        List.not_mem_nil, false_implies, implies_true, List.Pairwise.nil, and_true, inExtent]
      intro x
      omega)
    (by simp [inExtent])).1
  rw [h]
  decide

/-! ## What an accepted e-mail value looks like -/

theorem count_dropWhile_isWhiteSpace (x : CodeUnit) (hx : isWhiteSpace x = false)
    (l : JSString) : (l.dropWhile isWhiteSpace).count x = l.count x := by
  induction l with
  | nil => rfl
  | cons y l ih =>
    by_cases hy : isWhiteSpace y = true
    · have hne : y ≠ x := by
        rintro rfl
        rw [hx] at hy
        exact Bool.noConfusion hy
      rw [List.dropWhile_cons_of_pos hy, ih, List.count_cons_of_ne hne.symm]
    · rw [List.dropWhile_cons_of_neg hy]

theorem count_trim (x : CodeUnit) (hx : isWhiteSpace x = false) (v : JSString) :
    (trim v).count x = v.count x := by
  simp only [trim, trimEnd, trimStart, List.count_reverse, count_dropWhile_isWhiteSpace x hx]

theorem EmailPattern.shape {v : JSString} (h : EmailPattern v) :
    v.count 0x40 = 1 ∧ (∀ x ∈ v, isWhiteSpace x = false) ∧
      ∃ a b c : JSString, v = a ++ 0x40 :: (b ++ 0x2E :: c) ∧ 0x40 ∉ a ∧ b ≠ [] ∧ c ≠ [] := by
  obtain ⟨a, b, c, rfl, _, hb, hc, hav, hbv, hcv⟩ := h
  have ha0 : a.count 0x40 = 0 := List.count_eq_zero.mpr fun hmem => (hav _ hmem).2 rfl
  have hb0 : b.count 0x40 = 0 := List.count_eq_zero.mpr fun hmem => (hbv _ hmem).2 rfl
  have hc0 : c.count 0x40 = 0 := List.count_eq_zero.mpr fun hmem => (hcv _ hmem).2 rfl
  refine ⟨?_, ?_, a, b, c, rfl, fun hmem => (hav _ hmem).2 rfl, hb, hc⟩
  · simp [List.count_append, List.count_cons, ha0, hb0, hc0]
  · intro x hx
    simp only [List.mem_append, List.mem_cons] at hx
    rcases hx with hx | rfl | hx | rfl | hx
    · exact (hav x hx).1
    · decide
    · exact (hbv x hx).1
    · decide
    · exact (hcv x hx).1

theorem validateField_email_shape (field : Field) (h : field.type = "email")
    (hv : (Js.validateField field).1 = true) :
    field.value.count 0x40 = 1 ∧ (∀ x ∈ trim field.value, isWhiteSpace x = false) ∧
      ∃ a b c : JSString, trim field.value = a ++ 0x40 :: (b ++ 0x2E :: c) ∧ 0x40 ∉ a ∧
        b ≠ [] ∧ c ≠ [] := by
  rw [validateField_email field h, emailRegex_test_iff] at hv
  have hs := hv.shape
  rw [count_trim 0x40 (by decide)] at hs
  exact hs

/-- Claim C10: every value accepted by `validateField` for an `email` field, in either
script, contains exactly one `@`, has no white space left after trimming, and its trimmed
form is `a ++ "@" ++ b ++ "." ++ c` with no `@` in `a` (so this is the one `@`) and with
`b` and `c` non-empty; `a@b.co` is accepted while `a@b` and the empty string are rejected,
whether or not the field is required. -/
theorem validateField_email_accepted (field : Field) (h : field.type = "email") :
    ((Js.validateField field).1 = true →
        field.value.count 0x40 = 1 ∧ (∀ x ∈ trim field.value, isWhiteSpace x = false) ∧
          ∃ a b c : JSString, trim field.value = a ++ 0x40 :: (b ++ 0x2E :: c) ∧ 0x40 ∉ a ∧
            b ≠ [] ∧ c ≠ []) ∧
      ((Static.validateField field).1 = true →
        field.value.count 0x40 = 1 ∧ (∀ x ∈ trim field.value, isWhiteSpace x = false) ∧
          ∃ a b c : JSString, trim field.value = a ++ 0x40 :: (b ++ 0x2E :: c) ∧ 0x40 ∉ a ∧
            b ≠ [] ∧ c ≠ []) ∧
      (∀ required : Bool,
        (Js.validateField (sampleField "email" "a@b.co" required)).1 = true ∧
        (Js.validateField (sampleField "email" "a@b" required)).1 = false ∧
        (Js.validateField (sampleField "email" "" required)).1 = false ∧
        (Static.validateField (sampleField "email" "a@b.co" required)).1 = true ∧
        (Static.validateField (sampleField "email" "a@b" required)).1 = false ∧
        (Static.validateField (sampleField "email" "" required)).1 = false) := by
  refine ⟨validateField_email_shape field h, ?_, ?_⟩
  · rw [static_validateField_eq]
    exact validateField_email_shape field h
  · intro required
    cases required <;> decide

/-- Witness for `validateField_email_accepted`: the accepted value ` a@b.co ` has one `@`. -/
theorem validateField_email_accepted_witness :
    (sampleField "email" " a@b.co " false).type = "email" ∧
      (Js.validateField (sampleField "email" " a@b.co " false)).1 = true ∧
      (sampleField "email" " a@b.co " false).value.count 0x40 = 1 :=
  ⟨rfl, by decide,
    ((validateField_email_accepted (sampleField "email" " a@b.co " false) rfl).1
      (by decide)).1⟩

/-! ## Lazy image loading -/

theorem static_imageObserverEntry_eq : Static.imageObserverEntry = Js.imageObserverEntry := rfl

theorem static_imageObserverCallback_eq :
    Static.imageObserverCallback = Js.imageObserverCallback := rfl

theorem imageObserverEntry_getElem? (images : List LazyImage) (entry : ObserverEntry)
    (j : Nat) :
    (Js.imageObserverEntry images entry)[j]? =
      if (entry.isIntersecting && entry.target == j) = true then (images[j]?).map loadImage
      else images[j]? := by
  unfold Js.imageObserverEntry
  cases hint : entry.isIntersecting
  · simp
  · simp only [if_true, Bool.true_and, beq_iff_eq]
    rw [List.getElem?_modify]
    by_cases hj : entry.target = j
    · simp only [hj, if_true]
      cases images[j]? <;> rfl
    · simp only [hj, if_false]
      cases images[j]? <;> rfl

theorem imageObserverCallback_cons (images : List LazyImage) (entry : ObserverEntry)
    (rest : List ObserverEntry) :
    Js.imageObserverCallback images (entry :: rest) =
      Js.imageObserverCallback (Js.imageObserverEntry images entry) rest := rfl

theorem imageObserverCallback_getElem? (entries : List ObserverEntry) :
    ∀ images : List LazyImage, DistinctIntersecting entries → ∀ j : Nat,
      (Js.imageObserverCallback images entries)[j]? =
        if reportedIntersecting entries j = true then (images[j]?).map loadImage
        else images[j]? := by
  induction entries with
  | nil =>
    intro images _ j
    simp [Js.imageObserverCallback, reportedIntersecting]
  | cons entry rest ih =>
    intro images hdistinct j
    rw [imageObserverCallback_cons]
    cases hint : entry.isIntersecting
    · have hrest : DistinctIntersecting rest := by
        simpa [DistinctIntersecting, List.filter_cons, hint] using hdistinct
      rw [ih _ hrest j, imageObserverEntry_getElem?]
      simp [reportedIntersecting, hint]
    · have hsplit : (∀ e ∈ rest, e.isIntersecting = true → ¬ e.target = entry.target) ∧
          DistinctIntersecting rest := by
        simpa [DistinctIntersecting, List.filter_cons, hint] using hdistinct
      rw [ih _ hsplit.2 j, imageObserverEntry_getElem?]
      by_cases hj : entry.target = j
      · have hnot : reportedIntersecting rest j = false := by
          rw [Bool.eq_false_iff]
          intro hrep
          simp only [reportedIntersecting, List.any_eq_true, Bool.and_eq_true,
            beq_iff_eq] at hrep
          obtain ⟨e, he, hei, het⟩ := hrep
          exact hsplit.1 e he hei (het.trans hj.symm)
        simp [reportedIntersecting, hint, hj] at hnot ⊢
        intro x hx hxi hxt
        exact absurd hxt (hnot x hx hxi)
      · simp [reportedIntersecting, hint, hj]

theorem imageObserverCallback_not_intersecting (entries : List ObserverEntry) :
    ∀ images : List LazyImage, (∀ entry ∈ entries, entry.isIntersecting = false) →
      Js.imageObserverCallback images entries = images := by
  induction entries with
  | nil => intro images _; rfl
  | cons entry rest ih =>
    intro images hall
    have hentry : Js.imageObserverEntry images entry = images := by
      simp [Js.imageObserverEntry, hall entry (List.mem_cons_self entry rest)]
    rw [imageObserverCallback_cons, hentry]
    exact ih images fun e he => hall e (List.mem_cons_of_mem entry he)

theorem assignedOnce_callback (images : List LazyImage) (entries : List ObserverEntry)
    (hinv : AssignedOnce images) (hdistinct : DistinctIntersecting entries)
    (hobserved : ∀ entry ∈ entries,
      (images[entry.target]?).map (fun img => img.observed) = some true) :
    AssignedOnce (Js.imageObserverCallback images entries) := by
  intro j img hj
  rw [imageObserverCallback_getElem? entries images hdistinct j] at hj
  by_cases hrep : reportedIntersecting entries j = true
  · rw [if_pos hrep] at hj
    simp only [reportedIntersecting, List.any_eq_true, Bool.and_eq_true, beq_iff_eq] at hrep
    obtain ⟨e, he, _, het⟩ := hrep
    have hobs := hobserved e he
    rw [het] at hobs
    cases himg : images[j]? with
    | none => rw [himg] at hj; cases hj
    | some img0 =>
      rw [himg] at hj hobs
      simp only [Option.map_some', Option.some.injEq] at hj hobs
      have h0 := (hinv j img0 himg).2 hobs
      rw [← hj]
      simp [loadImage, h0]
  · rw [if_neg hrep] at hj
    exact hinv j img hj

theorem assignedOnce_callbacks (callbacks : List (List ObserverEntry)) :
    ∀ images : List LazyImage, AssignedOnce images →
      (∀ entries ∈ callbacks, DistinctIntersecting entries) →
      CallbacksReportObserved Js.imageObserverCallback images callbacks →
      AssignedOnce (callbacks.foldl Js.imageObserverCallback images) := by
  induction callbacks with
  | nil => intro images hinv _ _; exact hinv
  | cons entries rest ih =>
    intro images hinv hdistinct hrep
    exact ih _
      (assignedOnce_callback images entries hinv
        (hdistinct entries (List.mem_cons_self entries rest)) hrep.1)
      (fun es hes => hdistinct es (List.mem_cons_of_mem entries hes)) hrep.2

theorem lazy_assigned_at_most_once (images : List LazyImage)
    (callbacks : List (List ObserverEntry))
    (hfresh : ∀ img ∈ images, img.srcAssignments = 0)
    (hdistinct : ∀ entries ∈ callbacks, DistinctIntersecting entries)
    (hrep : CallbacksReportObserved Js.imageObserverCallback images callbacks) :
    ∀ img ∈ callbacks.foldl Js.imageObserverCallback images, img.srcAssignments ≤ 1 := by
  have hinv : AssignedOnce images := by
    intro j img hj
    have h0 := hfresh img (List.mem_iff_getElem?.mpr ⟨j, hj⟩)
    exact ⟨by omega, fun _ => h0⟩
  intro img himg
  obtain ⟨j, hj⟩ := List.mem_iff_getElem?.mp himg
  exact (assignedOnce_callbacks callbacks images hinv hdistinct hrep j img hj).1

/-- Claim C11, as stated, fails: one callback whose two entries both report the same
observed image as intersecting reports only images observed when the callback starts, yet
both scripts assign the source of that image twice. -/
theorem lazy_loading_twice_counterexample :
    (∀ img ∈ [sampleImage "a.jpg"], img.srcAssignments = 0) ∧
      CallbacksReportObserved Js.imageObserverCallback [sampleImage "a.jpg"]
        [[⟨0, true⟩, ⟨0, true⟩]] ∧
      CallbacksReportObserved Static.imageObserverCallback [sampleImage "a.jpg"]
        [[⟨0, true⟩, ⟨0, true⟩]] ∧
      ([[(⟨0, true⟩ : ObserverEntry), ⟨0, true⟩]].foldl Js.imageObserverCallback
        [sampleImage "a.jpg"]).map (fun img => img.srcAssignments) = [2] ∧
      ([[(⟨0, true⟩ : ObserverEntry), ⟨0, true⟩]].foldl Static.imageObserverCallback
        [sampleImage "a.jpg"]).map (fun img => img.srcAssignments) = [2] := by
  refine ⟨by decide, ⟨by decide, trivial⟩, ⟨by decide, trivial⟩, by decide, by decide⟩

/-- Claim C11, amended: in the observer callback of either script, entries reported as not
intersecting change no image (the target keeps its source and stays observed), and a
callback that reports no image as intersecting twice turns exactly the images it reports
as intersecting into `loadImage` of what they were (real source set to the `data-src`
value, one assignment counted, no longer observed) and leaves the others alone; hence over
every sequence of callbacks that report only currently observed images, none of which
reports the same image as intersecting twice, the source of each image is assigned at most
once. -/
theorem lazy_loading_assigns_once (images : List LazyImage)
    (callbacks : List (List ObserverEntry))
    (hfresh : ∀ img ∈ images, img.srcAssignments = 0)
    (hdistinct : ∀ entries ∈ callbacks, DistinctIntersecting entries) :
    (∀ (imgs : List LazyImage) (entries : List ObserverEntry),
        (∀ entry ∈ entries, entry.isIntersecting = false) →
        Js.imageObserverCallback imgs entries = imgs ∧
          Static.imageObserverCallback imgs entries = imgs) ∧
      (∀ (imgs : List LazyImage) (entries : List ObserverEntry) (j : Nat),
        DistinctIntersecting entries →
        (Js.imageObserverCallback imgs entries)[j]? =
            (if reportedIntersecting entries j = true then (imgs[j]?).map loadImage
              else imgs[j]?) ∧
          (Static.imageObserverCallback imgs entries)[j]? =
            (if reportedIntersecting entries j = true then (imgs[j]?).map loadImage
              else imgs[j]?)) ∧
      (CallbacksReportObserved Js.imageObserverCallback images callbacks →
        ∀ img ∈ callbacks.foldl Js.imageObserverCallback images, img.srcAssignments ≤ 1) ∧
      (CallbacksReportObserved Static.imageObserverCallback images callbacks →
        ∀ img ∈ callbacks.foldl Static.imageObserverCallback images,
          img.srcAssignments ≤ 1) := by
  rw [static_imageObserverCallback_eq]
  refine ⟨?_, ?_, lazy_assigned_at_most_once images callbacks hfresh hdistinct,
    lazy_assigned_at_most_once images callbacks hfresh hdistinct⟩
  · intro imgs entries hall
    exact ⟨imageObserverCallback_not_intersecting entries imgs hall,
      imageObserverCallback_not_intersecting entries imgs hall⟩
  · intro imgs entries j hd
    exact ⟨imageObserverCallback_getElem? entries imgs hd j,
      imageObserverCallback_getElem? entries imgs hd j⟩

/-- Witness for `lazy_loading_assigns_once`: two images; the first callback reports the
first as not intersecting and the second as intersecting, the next callback reports the
first as intersecting. -/
theorem lazy_loading_assigns_once_witness :
    (∀ img ∈ [sampleImage "a.jpg", sampleImage "b.jpg"], img.srcAssignments = 0) ∧
      (∀ entries ∈ [[(⟨0, false⟩ : ObserverEntry), ⟨1, true⟩], [⟨0, true⟩]],
        DistinctIntersecting entries) ∧
      CallbacksReportObserved Js.imageObserverCallback
        [sampleImage "a.jpg", sampleImage "b.jpg"] [[⟨0, false⟩, ⟨1, true⟩], [⟨0, true⟩]] ∧
      [[(⟨0, false⟩ : ObserverEntry), ⟨1, true⟩], [⟨0, true⟩]].foldl Js.imageObserverCallback
        [sampleImage "a.jpg", sampleImage "b.jpg"] =
        [{ dataSrc := "a.jpg", src := some "a.jpg", lazy := false, observed := false,
           srcAssignments := 1 },
         { dataSrc := "b.jpg", src := some "b.jpg", lazy := false, observed := false,
           srcAssignments := 1 }] ∧
      ∀ img ∈ [[(⟨0, false⟩ : ObserverEntry), ⟨1, true⟩], [⟨0, true⟩]].foldl
        Js.imageObserverCallback [sampleImage "a.jpg", sampleImage "b.jpg"],
        img.srcAssignments ≤ 1 :=
  ⟨by decide, by decide, ⟨by decide, by decide, trivial⟩, by decide,
    (lazy_loading_assigns_once [sampleImage "a.jpg", sampleImage "b.jpg"]
      [[⟨0, false⟩, ⟨1, true⟩], [⟨0, true⟩]] (by decide) (by decide)).2.2.1
      ⟨by decide, by decide, trivial⟩⟩

/-! ## Typewriter -/

theorem static_initTypewriterEffect_eq :
    Static.initTypewriterEffect = Js.initTypewriterEffect := rfl

theorem static_tick_eq : Static.tick = Js.tick := rfl

theorem static_ticks_eq (k : Nat) (tw : Typewriter) : Static.ticks k tw = Js.ticks k tw := by
  induction k with
  | zero => rfl
  | succ k ih => simp only [Static.ticks, Js.ticks, ih, static_tick_eq]

theorem take_succ_charAt (t : JSString) (k : Nat) :
    t.take k ++ charAt t k = t.take (k + 1) := by
  rw [List.take_succ, charAt]
  cases t[k]? <;> rfl

/-- The typewriter of title `t` after `k` ticks, while characters remain to be shown. -/
theorem ticks_le (t : JSString) (k : Nat) (hk : k ≤ t.length) :
    Js.ticks k
        { textContent := [], borderRight := "2px solid #c9a24d", text := t, i := 0,
          timers := [⟨1000, .typeWriter⟩] } =
      some
        { textContent := t.take k, borderRight := "2px solid #c9a24d", text := t, i := k,
          timers := [⟨if k = 0 then 1000 else 100, .typeWriter⟩] } := by
  induction k with
  | zero => rfl
  | succ k ih =>
    have hlt : k < t.length := by omega
    rw [Js.ticks, ih (by omega)]
    simp only [Option.some_bind, Js.tick, Js.typeWriter, hlt, if_true, take_succ_charAt,
      List.nil_append, Nat.add_one_ne_zero, if_false]

/-- Claim C12: for every title string `t` of length `n`, in both scripts, the typewriter
starts from an empty displayed text with one `typeWriter` timer pending; after its `k`-th
tick (`k ≤ n`) the displayed text is exactly the first `k` characters of `t` and one
`typeWriter` timer is pending; the `(n+1)`-th tick appends nothing and leaves only the
cursor-removal timer (1000 ms) pending, so no further tick can happen and the displayed
text is `t`. -/
theorem typewriter_reveals_title (t : JSString) (border : String) :
    ∃ tw0, Js.initTypewriterEffect (some (t, border)) = some tw0 ∧
      Static.initTypewriterEffect (some (t, border)) = some tw0 ∧
      tw0.textContent = [] ∧
      (∀ k, k ≤ t.length → ∃ tw, Js.ticks k tw0 = some tw ∧ Static.ticks k tw0 = some tw ∧
        tw.textContent = t.take k ∧
        tw.timers.map (fun timer => timer.callback) = [TypewriterCallback.typeWriter]) ∧
      ∃ twEnd, Js.ticks (t.length + 1) tw0 = some twEnd ∧
        Static.ticks (t.length + 1) tw0 = some twEnd ∧
        twEnd.textContent = t ∧ twEnd.timers = [⟨1000, .removeCursor⟩] ∧
        Js.tick twEnd = none ∧ Static.tick twEnd = none := by
  refine ⟨Typewriter.mk [] "2px solid #c9a24d" t 0 [⟨1000, .typeWriter⟩], rfl, rfl, rfl,
    ?_, ?_⟩
  · intro k hk
    exact ⟨_, ticks_le t k hk, by rw [static_ticks_eq]; exact ticks_le t k hk, rfl, rfl⟩
  · have hend : Js.ticks (t.length + 1)
        { textContent := [], borderRight := "2px solid #c9a24d", text := t, i := 0,
          timers := [⟨1000, .typeWriter⟩] } =
        some
          { textContent := t, borderRight := "2px solid #c9a24d", text := t, i := t.length,
            timers := [⟨1000, .removeCursor⟩] } := by
      rw [Js.ticks, ticks_le t t.length (Nat.le_refl _)]
      simp only [Option.some_bind, Js.tick, Js.typeWriter, Nat.lt_irrefl, if_false,
        List.take_length, List.nil_append]
    exact ⟨_, hend, by rw [static_ticks_eq]; exact hend, rfl, rfl, rfl, rfl⟩

/-! ## Mobile menu -/

theorem static_init_resizeListener (innerWidth : Int) (nav : MobileNav) :
    (Static.initMobileNavigation innerWidth nav).resizeListener = true := rfl

theorem js_init_resizeListener (innerWidth : Int) (nav : MobileNav) :
    (Js.initMobileNavigation innerWidth nav).resizeListener = nav.resizeListener := by
  unfold Js.initMobileNavigation
  split
  · split <;> rfl
  · rfl

/-- Claim C13 holds for `src/static/js/script.js` and fails for `src/js/script.js`: once the
single-page script is initialised, a resize to a width above 768 leaves the panel without
`mobile-open`, whatever the flag was, and a resize to 768 or less leaves the flag as it is;
the multi-page script attaches no `resize` listener, so after it is initialised at width
500 and the menu is opened by a click, a resize to width 1024 leaves `mobile-open` set (and
no resize ever changes the menu). -/
theorem resize_collapses_menu_only_in_static :
    (∀ (innerWidth0 : Int) (nav : MobileNav) (innerWidth : Int),
        (innerWidth > 768 →
          (resizeEvent innerWidth (Static.initMobileNavigation innerWidth0 nav)).mobileOpen
            = false) ∧
        (innerWidth ≤ 768 →
          (resizeEvent innerWidth (Static.initMobileNavigation innerWidth0 nav)).mobileOpen
            = (Static.initMobileNavigation innerWidth0 nav).mobileOpen)) ∧
      (resizeEvent 1024 (Js.menuClick (Js.initMobileNavigation 500 freshMenu))).mobileOpen
        = true ∧
      (∀ (innerWidth0 : Int) (mobileOpen : Bool) (menuBtn : Option String) (innerWidth : Int),
        resizeEvent innerWidth
            (Js.initMobileNavigation innerWidth0
              { mobileOpen := mobileOpen, menuBtn := menuBtn, clickListener := false,
                resizeListener := false }) =
          Js.initMobileNavigation innerWidth0
            { mobileOpen := mobileOpen, menuBtn := menuBtn, clickListener := false,
              resizeListener := false }) := by
  refine ⟨?_, by decide, ?_⟩
  · intro innerWidth0 nav innerWidth
    constructor
    · intro hw
      simp [resizeEvent, static_init_resizeListener, Static.resizeHandler, hw]
    · intro hw
      have hnot : ¬ innerWidth > 768 := by omega
      simp [resizeEvent, static_init_resizeListener, Static.resizeHandler, hnot]
  · intro innerWidth0 mobileOpen menuBtn innerWidth
    simp [resizeEvent, js_init_resizeListener]

/-! ## The two validators side by side -/

/-- Claim C14: the validators of the two scripts are equivalent: for every field (type,
value, required flag, prior error marker) the two `validateField` return the same boolean
and leave the same field, error marker included, and for every form the two `validateForm`
return the same boolean and leave the same fields. -/
theorem validators_equivalent :
    (∀ field : Field, Js.validateField field = Static.validateField field) ∧
      (∀ form : List Field, Js.validateForm form = Static.validateForm form) :=
  ⟨fun _ => rfl, fun form => (static_validateFormLoop_eq form true).symm⟩

/-! ## Scroll throttle -/

theorem throttleInv_step (page : SinglePage) (event : SinglePageEvent)
    (hinv : ThrottleInv page) : ThrottleInv (Static.step page event) := by
  cases event with
  | scroll scrollY =>
    rcases hinv with ⟨ht, hp⟩ | ⟨ht, hp⟩
    · right
      simp [Static.step, Static.scrollListener, ht, hp]
    · right
      simp [Static.step, Static.scrollListener, ht, hp]
  | animationFrame =>
    rcases hinv with ⟨ht, hp⟩ | ⟨ht, hp⟩
    · left
      simp [Static.step, hp, ht]
    · left
      simp [Static.step, hp, Static.frameCallback]
  | menuClick => exact hinv
  | linkClick href =>
    have hsame : (Static.step page (.linkClick href)).ticking = page.ticking ∧
        (Static.step page (.linkClick href)).pendingFrames = page.pendingFrames := by
      simp only [Static.step, Static.linkClick]
      split
      · split
        · split <;> exact ⟨rfl, rfl⟩
        · exact ⟨rfl, rfl⟩
      · exact ⟨rfl, rfl⟩
    unfold ThrottleInv
    rw [hsame.1, hsame.2]
    exact hinv
  | resize innerWidth => exact hinv

theorem throttleInv_run (events : List SinglePageEvent) :
    ∀ page : SinglePage, ThrottleInv page → ThrottleInv (Static.run page events) := by
  induction events with
  | nil => intro page hinv; exact hinv
  | cons event rest ih =>
    intro page hinv
    exact ih _ (throttleInv_step page event hinv)

/-- Claim C15: starting from `ticking = false` with no animation-frame callback pending,
after every sequence of events of the single-page document (scroll events and animation
frames among them) at most one animation-frame callback is pending and `ticking` is true
exactly when one is pending; a scroll event that arrives while `ticking` is true schedules
nothing, and a pending callback, when it fires, runs `updateActiveNavOnScroll` once on the
current scroll offset and resets `ticking` to false. -/
theorem scroll_throttle_invariant (page : SinglePage) (events : List SinglePageEvent)
    (hticking : page.ticking = false) (hpending : page.pendingFrames = 0) :
    (Static.run page events).pendingFrames ≤ 1 ∧
      ((Static.run page events).ticking = true ↔ (Static.run page events).pendingFrames = 1) ∧
      ((Static.run page events).ticking = true → ∀ scrollY : Int,
        (Static.step (Static.run page events) (.scroll scrollY)).pendingFrames =
            (Static.run page events).pendingFrames ∧
          (Static.step (Static.run page events) (.scroll scrollY)).ticking = true) ∧
      ((Static.run page events).pendingFrames = 1 →
        (Static.step (Static.run page events) .animationFrame).ticking = false ∧
          (Static.step (Static.run page events) .animationFrame).pendingFrames = 0 ∧
          (Static.step (Static.run page events) .animationFrame).navUpdates =
            (Static.run page events).navUpdates + 1 ∧
          (Static.step (Static.run page events) .animationFrame).navLinks =
            Static.updateActiveNavOnScroll (Static.run page events).sections
              (Static.run page events).scrollY (Static.run page events).navLinks) := by
  have hinv : ThrottleInv (Static.run page events) :=
    throttleInv_run events page (Or.inl ⟨hticking, hpending⟩)
  generalize Static.run page events = st at hinv
  refine ⟨?_, ?_, ?_, ?_⟩
  · rcases hinv with ⟨_, hp⟩ | ⟨_, hp⟩ <;> omega
  · rcases hinv with ⟨ht, hp⟩ | ⟨ht, hp⟩ <;> simp [ht, hp]
  · intro ht scrollY
    simp [Static.step, Static.scrollListener, ht]
  · intro hp
    simp [Static.step, hp, Static.frameCallback]

/-- Witness for `scroll_throttle_invariant`: two scroll events in a row arm the throttle
once, and the frame that follows updates the navigation once. -/
theorem scroll_throttle_invariant_witness :
    sampleSinglePage.ticking = false ∧ sampleSinglePage.pendingFrames = 0 ∧
      (Static.run sampleSinglePage [.scroll 100, .scroll 200]).pendingFrames = 1 ∧
      (Static.run sampleSinglePage [.scroll 100, .scroll 200, .animationFrame]).navUpdates
        = 1 ∧
      (Static.run sampleSinglePage [.scroll 100, .scroll 200]).pendingFrames ≤ 1 :=
  ⟨rfl, rfl, by decide, by decide,
    (scroll_throttle_invariant sampleSinglePage [.scroll 100, .scroll 200] rfl rfl).1⟩

/-! ## Fields without a rule -/

theorem validateField_no_rule (field : Field) (hemail : field.type ≠ "email")
    (htel : field.type ≠ "tel") (htext : field.type ≠ "text")
    (htextarea : field.type ≠ "textarea") :
    Js.validateField field = (true, { field with error := false }) := by
  simp [Js.validateField, hemail, htel, htext, htextarea]

/-- Claim C16: for every field whose type is none of `email`, `tel`, `text` and `textarea`,
in both scripts, `validateField` returns true and leaves the field without the error
marker and otherwise unchanged, whatever its value, required or not; and for every form
`validateForm` returns the same result as on the form with all such fields left out, so no
such field ever makes it reject a form. -/
theorem validateField_other_types_valid (field : Field) (hemail : field.type ≠ "email")
    (htel : field.type ≠ "tel") (htext : field.type ≠ "text")
    (htextarea : field.type ≠ "textarea") :
    Js.validateField field = (true, { field with error := false }) ∧
      Static.validateField field = (true, { field with error := false }) ∧
      (∀ form : List Field,
        (Js.validateForm form).1 =
            (Js.validateForm (form.filter fun f =>
              decide (f.type = "email" ∨ f.type = "tel" ∨ f.type = "text" ∨
                f.type = "textarea"))).1 ∧
          (Static.validateForm form).1 =
            (Static.validateForm (form.filter fun f =>
              decide (f.type = "email" ∨ f.type = "tel" ∨ f.type = "text" ∨
                f.type = "textarea"))).1) := by
  refine ⟨validateField_no_rule field hemail htel htext htextarea, ?_, ?_⟩
  · rw [static_validateField_eq]
    exact validateField_no_rule field hemail htel htext htextarea
  · intro form
    have key : (Js.validateForm form).1 =
        (Js.validateForm (form.filter fun f =>
          decide (f.type = "email" ∨ f.type = "tel" ∨ f.type = "text" ∨
            f.type = "textarea"))).1 := by
      rw [Bool.eq_iff_iff, validateForm_fst_iff, validateForm_fst_iff]
      constructor
      · intro h f hf hreq
        exact h f (List.mem_filter.mp hf).1 hreq
      · intro h f hf hreq
        by_cases hrule : f.type = "email" ∨ f.type = "tel" ∨ f.type = "text" ∨
            f.type = "textarea"
        · exact h f (List.mem_filter.mpr ⟨hf, decide_eq_true hrule⟩) hreq
        · simp only [not_or] at hrule
          rw [validateField_no_rule f hrule.1 hrule.2.1 hrule.2.2.1 hrule.2.2.2]
    rw [static_validateForm_eq, static_validateForm_eq]
    exact ⟨key, key⟩

/-- Witness for `validateField_other_types_valid`: a required, empty check box. -/
theorem validateField_other_types_valid_witness :
    (sampleField "checkbox" "" true).type ≠ "email" ∧
      (sampleField "checkbox" "" true).type ≠ "tel" ∧
      (sampleField "checkbox" "" true).type ≠ "text" ∧
      (sampleField "checkbox" "" true).type ≠ "textarea" ∧
      Js.validateField (sampleField "checkbox" "" true) =
        (true, { sampleField "checkbox" "" true with error := false }) :=
  ⟨by decide, by decide, by decide, by decide,
    (validateField_other_types_valid (sampleField "checkbox" "" true) (by decide) (by decide)
      (by decide) (by decide)).1⟩

/-! ## Scrolling between sections -/

/-- Claim C17: for every list of sections and every scroll offset such that no section's
extent `[top, top+height)` contains the probe point `scrollY + 150`,
`updateActiveNavOnScroll` leaves every navigation link, its active marker included, exactly
as it was. -/
theorem updateActiveNavOnScroll_no_section (sections : List Section) (scrollY : Int)
    (navLinks : List NavLink)
    (hnone : ∀ sec ∈ sections, ¬ inExtent sec (scrollY + 150)) :
    Static.updateActiveNavOnScroll sections scrollY navLinks = navLinks := by
  have hex : ¬ ∃ sec ∈ sections, inExtent sec (scrollY + 150) := by
    rintro ⟨sec, hsec, hin⟩
    exact hnone sec hsec hin
  rw [updateActiveNavOnScroll_same_id "" scrollY sections navLinks
    (fun sec hsec hin => absurd hin (hnone sec hsec)), if_neg hex]

/-- Witness for `updateActiveNavOnScroll_no_section`: the probe `600 + 150` lies past the
last sample section, and the active link stays the first one. -/
theorem updateActiveNavOnScroll_no_section_witness :
    (∀ sec ∈ sampleSections, ¬ inExtent sec (600 + 150)) ∧
      Static.updateActiveNavOnScroll sampleSections 600 sampleLinks = sampleLinks :=
  ⟨by decide, updateActiveNavOnScroll_no_section sampleSections 600 sampleLinks (by decide)⟩

/-! ## Menu button label -/

theorem linkClick_menu (href : Option String) (page : SinglePage) :
    (Static.linkClick href page).menu = page.menu ∨
      (Static.linkClick href page).menu =
        { page.menu with mobileOpen := false, menuBtn := page.menu.menuBtn.map fun _ => "☰" } := by
  simp only [Static.linkClick]
  split
  · split
    · split
      · exact Or.inr rfl
      · exact Or.inl rfl
    · exact Or.inl rfl
  · exact Or.inl rfl

theorem menuInv_closed (menu : MobileNav) (hinv : MenuInv menu) :
    MenuInv { menu with mobileOpen := false, menuBtn := menu.menuBtn.map fun _ => "☰" } := by
  left
  rcases hinv with ⟨_, hb⟩ | ⟨_, hb⟩ <;> simp [hb]

theorem menuInv_step (page : SinglePage) (event : SinglePageEvent)
    (hinv : MenuInv page.menu) : MenuInv (Static.step page event).menu := by
  cases event with
  | scroll scrollY =>
    simp only [Static.step, Static.scrollListener]
    split <;> exact hinv
  | animationFrame =>
    simp only [Static.step]
    split <;> exact hinv
  | menuClick =>
    simp only [Static.step, Static.menuClick]
    split
    · rcases hinv with ⟨ho, hb⟩ | ⟨ho, hb⟩
      · right
        simp [Static.menuBtnClick, ho, hb]
      · left
        simp [Static.menuBtnClick, ho, hb]
    · exact hinv
  | linkClick href =>
    rcases linkClick_menu href page with h | h
    · rw [Static.step, h]
      exact hinv
    · rw [Static.step, h]
      exact menuInv_closed page.menu hinv
  | resize innerWidth =>
    simp only [Static.step, resizeEvent, Static.resizeHandler]
    split
    · split
      · exact menuInv_closed page.menu hinv
      · exact hinv
    · exact hinv

theorem clickListener_step (page : SinglePage) (event : SinglePageEvent) :
    (Static.step page event).menu.clickListener = page.menu.clickListener := by
  cases event with
  | scroll scrollY =>
    simp only [Static.step, Static.scrollListener]
    split <;> rfl
  | animationFrame =>
    simp only [Static.step]
    split <;> rfl
  | menuClick =>
    simp only [Static.step, Static.menuClick]
    split <;> rfl
  | linkClick href =>
    rcases linkClick_menu href page with h | h <;> rw [Static.step, h]
  | resize innerWidth =>
    simp only [Static.step, resizeEvent, Static.resizeHandler]
    split
    · split <;> rfl
    · rfl

theorem menu_run (events : List SinglePageEvent) :
    ∀ page : SinglePage, MenuInv page.menu →
      MenuInv (Static.run page events).menu ∧
        (Static.run page events).menu.clickListener = page.menu.clickListener := by
  induction events with
  | nil => intro page hinv; exact ⟨hinv, rfl⟩
  | cons event rest ih =>
    intro page hinv
    have h := ih (Static.step page event) (menuInv_step page event hinv)
    exact ⟨h.1, h.2.trans (clickListener_step page event)⟩

/-- Claim C18, as stated, fails: a page that ships its own menu button reading `☰` starts
from a closed panel whose button shows `☰`, but `initMobileNavigation` attaches its click
listener only to a button it creates itself, so a click on this button flips nothing. -/
theorem menu_click_own_button_counterexample :
    ownButtonPage.menu.mobileOpen = false ∧ ownButtonPage.menu.menuBtn = some "☰" ∧
      (Static.step ownButtonPage .menuClick).menu.mobileOpen = false ∧
      (Static.step ownButtonPage .menuClick).menu.mobileOpen ≠
        !ownButtonPage.menu.mobileOpen := by
  decide

/-- Claim C18, amended: in the single-page script, starting from a closed menu panel whose
button shows `☰`, after every sequence of events (menu-button clicks, clicks on links, hash
links with existing targets among them, resize events, scroll events) the button shows `✕`
exactly when the panel carries `mobile-open`; when the button is the one the script
created, so that its click listener is attached, each click on it flips the flag and two
clicks in a row restore both the flag and the label; when the button was already in the
page, so that the script attached no click listener, a click changes neither. -/
theorem menu_label_tracks_flag (page : SinglePage) (events : List SinglePageEvent)
    (hclosed : page.menu.mobileOpen = false) (hbtn : page.menu.menuBtn = some "☰") :
    ((Static.run page events).menu.menuBtn = some "✕" ↔
        (Static.run page events).menu.mobileOpen = true) ∧
      (page.menu.clickListener = true →
        (Static.step (Static.run page events) .menuClick).menu.mobileOpen =
            !(Static.run page events).menu.mobileOpen ∧
          (Static.step (Static.step (Static.run page events) .menuClick) .menuClick).menu =
            (Static.run page events).menu) ∧
      (page.menu.clickListener = false →
        (Static.step (Static.run page events) .menuClick).menu =
          (Static.run page events).menu) := by
  have h := menu_run events page (Or.inl ⟨hclosed, hbtn⟩)
  generalize Static.run page events = st at h
  obtain ⟨hinv, hlistener⟩ := h
  refine ⟨?_, ?_, ?_⟩
  · rcases hinv with ⟨ho, hb⟩ | ⟨ho, hb⟩
    · rw [ho, hb]
      decide
    · rw [ho, hb]
      decide
  · intro hl
    rw [hl] at hlistener
    rcases hinv with ⟨ho, hb⟩ | ⟨ho, hb⟩
    · constructor
      · simp [Static.step, Static.menuClick, Static.menuBtnClick, hlistener, ho]
      · cases hst : st.menu
        rw [hst] at ho hb hlistener
        simp only at ho hb hlistener
        subst ho hb hlistener
        simp [Static.step, Static.menuClick, Static.menuBtnClick, hst]
    · constructor
      · simp [Static.step, Static.menuClick, Static.menuBtnClick, hlistener, ho]
      · cases hst : st.menu
        rw [hst] at ho hb hlistener
        simp only at ho hb hlistener
        subst ho hb hlistener
        simp [Static.step, Static.menuClick, Static.menuBtnClick, hst]
  · intro hl
    rw [hl] at hlistener
    simp [Static.step, Static.menuClick, hlistener]

/-- Witness for `menu_label_tracks_flag`: open the menu, follow the link `#b`, open it
again and widen the window. -/
theorem menu_label_tracks_flag_witness :
    sampleSinglePage.menu.mobileOpen = false ∧ sampleSinglePage.menu.menuBtn = some "☰" ∧
      (Static.run sampleSinglePage [.menuClick]).menu.menuBtn = some "✕" ∧
      (Static.run sampleSinglePage [.menuClick, .linkClick (some "#b")]).menu.menuBtn
        = some "☰" ∧
      ((Static.run sampleSinglePage
            [.menuClick, .linkClick (some "#b"), .menuClick, .resize 1024]).menu.menuBtn
          = some "✕" ↔
        (Static.run sampleSinglePage
            [.menuClick, .linkClick (some "#b"), .menuClick, .resize 1024]).menu.mobileOpen
          = true) :=
  ⟨rfl, rfl, by decide, by decide,
    (menu_label_tracks_flag sampleSinglePage
      [.menuClick, .linkClick (some "#b"), .menuClick, .resize 1024] rfl rfl).1⟩

/-! ## `submitForm` invoked twice -/

/-- Claim C19 fails in both scripts: when `submitForm` is invoked on a form whose enabled
submit button is labelled `label`, and again before the first delayed callback has run, the
second invocation saves `Sending...` as the text to restore; once both callbacks have run,
in the order they were scheduled, the button is enabled but reads `Sending...`, not
`label`.  On the sample page, whose button reads `Send`, it ends up reading `Sending...`. -/
theorem submitForm_twice_leaves_sending_label :
    (∀ (fields : List Field) (label : String) (notifications : List Notification),
        ((((Js.submitForm
                { fields := fields, submitBtn := some { textContent := label, disabled := false },
                  timers := [], notifications := notifications }).bind
              Js.submitForm).bind (fire 0)).bind (fire 0)).map (fun page => page.submitBtn) =
            some (some { textContent := "Sending...", disabled := false }) ∧
          ((((Static.submitForm
                { fields := fields, submitBtn := some { textContent := label, disabled := false },
                  timers := [], notifications := notifications }).bind
              Static.submitForm).bind (fire 0)).bind (fire 0)).map (fun page => page.submitBtn) =
            some (some { textContent := "Sending...", disabled := false })) ∧
      samplePage.submitBtn = some { textContent := "Send", disabled := false } ∧
      ((((Js.submitForm samplePage).bind Js.submitForm).bind (fire 0)).bind (fire 0)).map
          (fun page => page.submitBtn) =
        some (some { textContent := "Sending...", disabled := false }) ∧
      ((((Static.submitForm samplePage).bind Static.submitForm).bind (fire 0)).bind
          (fire 0)).map (fun page => page.submitBtn) =
        some (some { textContent := "Sending...", disabled := false }) := by
  refine ⟨?_, rfl, by decide, by decide⟩
  intro fields label notifications
  constructor
  · simp [Js.submitForm, fire, runCallback, Js.showNotification]
  · simp [Static.submitForm, fire, runCallback]

end PrestigeMotors
